import Mathlib

/-!
Verification of the RELATRIX orchestrator core against its specification.

The Python source is shallowly embedded: pure functions become Lean
functions, stateful methods become functions from state to state, Python
dictionaries become insertion-ordered association lists, Python floats
become exact rationals or exact integer hundredths (every literal the
code uses is decimal; each section notes its choice), and
`datetime` arithmetic is carried as explicit numeric timestamps or elapsed
times.  Fields and branches that no claim consults (timestamps on events,
UUID ids, logging, model parameters forwarded verbatim to OpenAI) are
omitted and noted at each definition.
-/

namespace Relatrix

/-! ## Python string helpers

`pyIn needle hay` models the Python expression `needle in hay` on strings
(substring containment, with `"" in s` true). -/

/-- Boolean substring test on character lists: the needle occurs as a
contiguous run inside the haystack. -/
def containsSub (needle : List Char) : List Char → Bool
  | [] => needle.isEmpty
  | c :: t => needle.isPrefixOf (c :: t) || containsSub needle t

/-- Python `needle in hay` for strings. -/
def pyIn (needle hay : String) : Bool :=
  containsSub needle.toList hay.toList

/-- ASCII lowercase of one character (Python `str.lower`; the sources
only lowercase ASCII-relevant text). -/
def pyLowerChar (c : Char) : Char :=
  if 65 ≤ c.toNat ∧ c.toNat ≤ 90 then Char.ofNat (c.toNat + 32) else c

/-- Python `s.lower()`. -/
def pyLower (s : String) : String :=
  String.mk (s.toList.map pyLowerChar)

/-- Python `s.strip()`: drop leading and trailing whitespace. -/
def pyStrip (s : String) : String :=
  String.mk (((s.toList.dropWhile Char.isWhitespace).reverse.dropWhile
    Char.isWhitespace).reverse)

/-- Minimum of two integers (Python `min`). -/
def iMin (a b : Int) : Int := if a ≤ b then a else b

/-- Maximum of two integers (Python `max`). -/
def iMax (a b : Int) : Int := if a ≤ b then b else a

/-- Ordered-dictionary update, as in Python: an existing key keeps its
position, a new key is appended. -/
def dictSet {α : Type} (m : List (String × α)) (k : String) (v : α) :
    List (String × α) :=
  match m with
  | [] => [(k, v)]
  | (k', v') :: rest => if k' = k then (k, v) :: rest else (k', v') :: dictSet rest k v

/-- Ordered-dictionary lookup (Python `m.get(k)`). -/
def dictGet {α : Type} (m : List (String × α)) (k : String) : Option α :=
  match m with
  | [] => none
  | (k', v') :: rest => if k' = k then some v' else dictGet rest k

/-! ## Backend orchestrator data model (src/backend/app/orchestrator/models.py)

Timestamps (`created_at`, `updated_at`, per-event `timestamp`) and the
free-form `metadata` dictionaries are omitted except for the one metadata
key the core consults: the `transfer_event` flag on a `Message` (read by
the memory coordinator's agent-transfer trigger). -/

/-- Reasons for agent transfers (`TransferReason`). -/
inductive TransferReason where
  | trigger_match
  | user_request
  | agent_suggestion
  | error_fallback
  | session_start
  deriving DecidableEq, Repr

/-- Chat message (`Message`): role, content, optional agent id, and the
`transfer_event` metadata flag. -/
structure Message where
  role : String
  content : String
  agent_id : Option String := none
  transfer_event_flag : Bool := false
  deriving DecidableEq, Repr

/-- The context snapshot `execute_transfer` attaches to a successful
transfer event (session id, message count, previous transfer count); the
failure path leaves the dictionary empty, modelled as `none`. -/
structure ContextSnapshot where
  session_id : String
  message_count : Nat
  previous_transfers : Nat
  deriving DecidableEq, Repr

/-- Agent transfer event (`TransferEvent`); `success` defaults to `true`
and `error` to `None` exactly as in the source. -/
structure TransferEvent where
  from_agent : String
  to_agent : String
  reason : TransferReason
  trigger : Option String := none
  user_message : String
  context : Option ContextSnapshot := none
  success : Bool := true
  error : Option String := none
  deriving DecidableEq, Repr

/-- Orchestrator session state (`SessionState`). -/
structure SessionState where
  session_id : String
  user_id : Option String := none
  current_agent : String
  conversation_history : List Message := []
  transfer_history : List TransferEvent := []
  memory_refs : List String := []
  deriving DecidableEq, Repr

/-- `SessionState.add_message`: append a message to the conversation
history. -/
def SessionState.add_message (s : SessionState) (m : Message) : SessionState :=
  { s with conversation_history := s.conversation_history ++ [m] }

/-- `SessionState.add_transfer`: append the transfer event and set
`current_agent` to its target in the same update. -/
def SessionState.add_transfer (s : SessionState) (t : TransferEvent) : SessionState :=
  { s with
    transfer_history := s.transfer_history ++ [t]
    current_agent := t.to_agent }

/-- Agent profile (`Agent`).  The UUID id, timestamps and the model
parameters (`openai_model`, `temperature`, `max_tokens`, `capabilities`,
`is_active`) are omitted: no claim consults them. -/
structure Agent where
  slug : String
  name : String
  description : String
  system_prompt : String
  transfer_triggers : List String := []
  display_order : Nat := 0
  deriving DecidableEq, Repr

/-- The registry's agent map `self.agents`: an insertion-ordered
dictionary from slug to agent. -/
abbrev AgentMap : Type := List (String × Agent)

/-- `AgentRegistry.get_agent` on an already-populated map (the lazy load
on an empty map is modelled separately in `load_agents`). -/
def getAgent (m : AgentMap) (slug : String) : Option Agent :=
  dictGet m slug

/-- `AgentRegistry.get_all_agents` on a populated map: the dictionary's
values in insertion order. -/
def getAllAgents (m : AgentMap) : List Agent :=
  m.map (·.2)

/-! ## Transfer engine (src/backend/app/orchestrator/transfer.py) -/

/-- `TransferEngine.execute_transfer`: verify the target exists in the
registry; on failure return a `success=False` event with an error and
leave the session untouched; on success build the event with its context
snapshot and apply `add_transfer`.  Returns the event and the resulting
session state (the Python method mutates `session_state` in place). -/
def execute_transfer (reg : AgentMap) (s : SessionState) (to_agent : String)
    (reason : TransferReason) (trigger : Option String) (user_message : String) :
    TransferEvent × SessionState :=
  match getAgent reg to_agent with
  | none =>
      ({ from_agent := s.current_agent
         to_agent := to_agent
         reason := reason
         trigger := trigger
         user_message := user_message
         success := false
         error := some "Target agent not found" }, s)
  | some _ =>
      let ev : TransferEvent :=
        { from_agent := s.current_agent
          to_agent := to_agent
          reason := reason
          trigger := trigger
          user_message := user_message
          context := some
            { session_id := s.session_id
              message_count := s.conversation_history.length
              previous_transfers := s.transfer_history.length } }
      (ev, s.add_transfer ev)

/-- An operation that touches a session's state in the backend core:
either `add_message` (the streaming controller appending a user or
assistant message) or a transfer attempt through
`TransferEngine.execute_transfer` against some registry snapshot. -/
inductive SessionOp where
  | msg (m : Message)
  | xfer (reg : AgentMap) (to_agent : String) (reason : TransferReason)
      (trigger : Option String) (user_message : String)

/-- Apply one operation to a session. -/
def applyOp (s : SessionState) : SessionOp → SessionState
  | .msg m => s.add_message m
  | .xfer reg tgt reason trig umsg => (execute_transfer reg s tgt reason trig umsg).2

/-- Run a sequence of operations. -/
def runOps (s : SessionState) (ops : List SessionOp) : SessionState :=
  ops.foldl applyOp s

/-- A fresh session as the orchestrator creates it (`create_session`):
empty histories, the given initial agent. -/
def initialSession (session_id initial_agent : String) : SessionState :=
  { session_id := session_id, current_agent := initial_agent }

/-- The `to_agent` of the last transfer event, or the default if the
history is empty. -/
def lastToAgentD (l : List TransferEvent) (d : String) : String :=
  match l.getLast? with
  | none => d
  | some ev => ev.to_agent

/-! ## Agent registry (src/backend/app/orchestrator/registry.py)

The asynchronous lock, logging, and the database session plumbing are
omitted; the backing store's behaviour on one call is an explicit
argument (`StoreResult`), and wall-clock time is an explicit `now`
parameter in seconds.  The seven built-in fallback agents keep their real
slugs, names, descriptions, trigger lists and display order; their long
system-prompt texts are not consulted by any claim and are elided to
`""`. -/

/-- Outcome of one backing-store query: the ordered list of active agent
rows, or a raised exception. -/
inductive StoreResult where
  | ok (rows : List Agent)
  | failure
  deriving DecidableEq

/-- Mutable registry state: the agent map, the cache TTL in seconds, and
the time of the last successful database load. -/
structure AgentRegistryState where
  agents : AgentMap
  cache_ttl : Nat := 300
  last_loaded : Option Nat := none

/-- `AgentRegistry._is_cache_valid`: false when never loaded or the map
is empty, else the cache age must be below the TTL. -/
def isCacheValid (r : AgentRegistryState) (now : Nat) : Bool :=
  match r.last_loaded with
  | none => false
  | some t => !r.agents.isEmpty && decide (now - t < r.cache_ttl)

/-- The fixed built-in agent list of `_load_default_agents` (system
prompts elided, display order by position). -/
def defaultAgents : List Agent :=
  [{ slug := "misunderstanding_protector"
     name := "Misunderstanding Protector"
     description := "Analyzes communication patterns and prevents misunderstandings"
     system_prompt := ""
     transfer_triggers :=
       ["I need to express my emotions", "I'm feeling overwhelmed", "I need to vent",
        "emotional dump", "I'm upset about"]
     display_order := 0 },
   { slug := "emotional_vomit_dumper"
     name := "Emotional Vomit Dumper"
     description := "Safe space for emotional release and processing"
     system_prompt := ""
     transfer_triggers :=
       ["I feel better now", "I'm ready to talk about solutions", "I want to work on this",
        "what should I do", "I need help with"]
     display_order := 1 },
   { slug := "conflict_solver"
     name := "Conflict Solver"
     description := "Mediates and resolves relationship conflicts"
     system_prompt := ""
     transfer_triggers :=
       ["we want to improve our relationship", "I want to work on us", "relationship goals",
        "make things better", "strengthen our bond"]
     display_order := 2 },
   { slug := "solution_finder"
     name := "Solution Finder"
     description := "Creates actionable plans for relationship improvement"
     system_prompt := ""
     transfer_triggers :=
       ["I want to practice", "I need to rehearse", "I'm worried about saying",
        "I don't know how to bring this up", "practice conversation"]
     display_order := 3 },
   { slug := "communication_simulator"
     name := "Communication Simulator"
     description := "Practice conversations in a safe environment"
     system_prompt := ""
     transfer_triggers :=
       ["I want to level up", "relationship games", "fun challenges",
        "make it exciting", "relationship activities"]
     display_order := 4 },
   { slug := "relationship_upgrader"
     name := "Relationship Upgrader"
     description := "Gamified relationship enhancement and growth"
     system_prompt := ""
     transfer_triggers :=
       ["I think we should break up", "I want to end this", "I can't do this anymore",
        "relationship is over", "I'm done"]
     display_order := 5 },
   { slug := "breakthrough_manager"
     name := "Breakthrough Manager"
     description := "Crisis support and major relationship decisions"
     system_prompt := ""
     transfer_triggers := []
     display_order := 6 }]

/-- `_load_default_agents`: insert every built-in agent into the current
map (the source mutates `self.agents` per slug without clearing it). -/
def loadDefaultsInto (m : AgentMap) : AgentMap :=
  defaultAgents.foldl (fun m a => dictSet m a.slug a) m

/-- Conversion of the database rows into a fresh agent map, keyed by
slug, in query order (the source assigns `self.agents = {}` and then
fills it row by row). -/
def dbRowsToMap (rows : List Agent) : AgentMap :=
  rows.foldl (fun m a => dictSet m a.slug a) []

/-- `AgentRegistry.load_agents` for one call: reuse a valid cache unless
forced; without a database load the defaults; on a successful query swap
in the fresh map (falling back to defaults if it is empty, with
`last_loaded` set either way); on a store failure keep the current map,
loading defaults only when it is empty. -/
def load_agents (r : AgentRegistryState) (force hasDb : Bool)
    (store : StoreResult) (now : Nat) : AgentMap × AgentRegistryState :=
  if !force && isCacheValid r now then (r.agents, r)
  else if !hasDb then
    let m := loadDefaultsInto r.agents
    (m, { r with agents := m })
  else
    match store with
    | .ok rows =>
        let m0 := dbRowsToMap rows
        let m := if m0.isEmpty then loadDefaultsInto m0 else m0
        (m, { r with agents := m, last_loaded := some now })
    | .failure =>
        let m := if r.agents.isEmpty then loadDefaultsInto r.agents else r.agents
        (m, { r with agents := m })

/-! ## Explicit transfer requests (src/backend/app/orchestrator/transfer.py)

`_check_explicit_transfer` runs four regular expressions against the
lowercased message.  Each is embedded as a bespoke leftmost matcher with
the same greedy/backtracking behaviour; `\w` is modelled as ASCII
alphanumerics plus underscore (the message is already lowercased).  The
optional leading group of the `talk to` pattern (`(?:i want to |can i
|let me )?`) only extends a match to the left and never changes the
captured name, so it is not modelled. -/

/-- Character class `\w` on a lowercased message. -/
def isWordChar (c : Char) : Bool :=
  c.isAlphanum || c = '_'

/-- Greedy capture `(?:the )?(\w+)`: try to skip a literal `the ` first,
falling back when no word character follows it. -/
def matchAfter (l : List Char) : Option String :=
  if "the ".toList.isPrefixOf l ∧ (l.drop 4).takeWhile isWordChar ≠ [] then
    some (String.mk ((l.drop 4).takeWhile isWordChar))
  else if l.takeWhile isWordChar ≠ [] then
    some (String.mk (l.takeWhile isWordChar))
  else none

/-- Pattern `transfer (?:me )?to (?:the )?(\w+)` anchored at a position. -/
def tryTransferTo (l : List Char) : Option String :=
  if "transfer ".toList.isPrefixOf l then
    let r := l.drop 9
    match (if "me to ".toList.isPrefixOf r then matchAfter (r.drop 6) else none) with
    | some w => some w
    | none => if "to ".toList.isPrefixOf r then matchAfter (r.drop 3) else none
  else none

/-- Pattern `switch to (?:the )?(\w+)` anchored at a position. -/
def trySwitchTo (l : List Char) : Option String :=
  if "switch to ".toList.isPrefixOf l then matchAfter (l.drop 10) else none

/-- Pattern `...talk to (?:the )?(\w+)` anchored at a position. -/
def tryTalkTo (l : List Char) : Option String :=
  if "talk to ".toList.isPrefixOf l then matchAfter (l.drop 8) else none

/-- Pattern `connect me (?:with|to) (?:the )?(\w+)` anchored at a
position. -/
def tryConnectMe (l : List Char) : Option String :=
  if "connect me ".toList.isPrefixOf l then
    let r := l.drop 11
    match (if "with ".toList.isPrefixOf r then matchAfter (r.drop 5) else none) with
    | some w => some w
    | none => if "to ".toList.isPrefixOf r then matchAfter (r.drop 3) else none
  else none

/-- `re.search`: try the anchored matcher at each position from the
left. -/
def searchPat (p : List Char → Option String) : List Char → Option String
  | [] => p []
  | c :: t =>
      match p (c :: t) with
      | some w => some w
      | none => searchPat p t

/-- The alias table mapping a captured name fragment to an agent slug,
in source order; lookup is by substring containment in the captured
word. -/
def agentAliasTable : List (String × String) :=
  [("misunderstanding", "misunderstanding_protector"),
   ("emotional", "emotional_vomit_dumper"),
   ("vomit", "emotional_vomit_dumper"),
   ("conflict", "conflict_solver"),
   ("solution", "solution_finder"),
   ("communication", "communication_simulator"),
   ("simulator", "communication_simulator"),
   ("relationship", "relationship_upgrader"),
   ("upgrader", "relationship_upgrader"),
   ("breakthrough", "breakthrough_manager"),
   ("crisis", "breakthrough_manager")]

/-- Resolve a captured agent name through the alias table (`if key in
agent_name`). -/
def resolveAgentName (w : String) : Option String :=
  match agentAliasTable.find? (fun kv => pyIn kv.1 w) with
  | some kv => some kv.2
  | none => none

/-- The four explicit-transfer phrases, in the source dictionary's
insertion order, paired with their matchers. -/
def transferPhrases : List (String × (List Char → Option String)) :=
  [("transfer me to", tryTransferTo),
   ("switch to", trySwitchTo),
   ("talk to", tryTalkTo),
   ("connect me with", tryConnectMe)]

/-- `TransferEngine._check_explicit_transfer` on the lowercased message:
for each phrase in order, search its pattern; if it matches and the
captured name resolves, return (slug, phrase key); otherwise move on. -/
def checkExplicitTransfer (ml : String) : Option (String × String) :=
  (transferPhrases.findSome? fun pp =>
    match searchPat pp.2 ml.toList with
    | some w =>
        match resolveAgentName w with
        | some slug => some (slug, pp.1)
        | none => none
    | none => none)

/-- Per-agent compiled regex patterns (`self.transfer_patterns`); each
compiled pattern is carried as an opaque text predicate, which is all the
claims consult. -/
abbrev PatternMap : Type := List (String × List (String → Bool))

/-- The trigger-scan part of `analyze_message`: iterate agents in
registry order, skipping the current one; per agent first the trigger
phrases (case-insensitive substring), then the compiled patterns. -/
def triggerScan (patterns : PatternMap) (ml current : String) :
    List Agent → Option (String × String × TransferReason)
  | [] => none
  | a :: rest =>
      if a.slug = current then triggerScan patterns ml current rest
      else
        match a.transfer_triggers.find? (fun t => pyIn (pyLower t) ml) with
        | some t => some (a.slug, t, .trigger_match)
        | none =>
            if ((dictGet patterns a.slug).getD []).any (fun p => p ml) then
              some (a.slug, "pattern match", .trigger_match)
            else triggerScan patterns ml current rest

/-- `TransferEngine.analyze_message`: lowercase and strip the message,
try the explicit-transfer check first (reason `user_request`), then the
per-agent trigger scan.  The session-state argument is accepted but, as
in the source, never read. -/
def analyze_message (reg : AgentMap) (patterns : PatternMap)
    (message current : String) (_st : SessionState) :
    Option (String × String × TransferReason) :=
  let ml := pyStrip (pyLower message)
  match checkExplicitTransfer ml with
  | some (slug, phrase) => some (slug, phrase, .user_request)
  | none => triggerScan patterns ml current (getAllAgents reg)

/-! ## Streaming turn (src/backend/app/orchestrator/streaming.py and
orchestrator.py)

The OpenAI stream for one turn is abstracted as the list of content
tokens it delivers, an optional error raised after them, and the
optional usage record of its final chunk.  Cancellation, logging and the
external persistence calls (Redis session save, Mem0 add) are omitted;
the turn's effect on the in-memory session state and its emitted chunk
sequence are modelled in full. -/

/-- Streaming response chunk (`StreamChunk`): type tag, optional text,
optional agent id.  The free-form metadata dictionary is omitted. -/
structure StreamChunk where
  type : String
  content : Option String := none
  agent_id : Option String := none
  deriving DecidableEq, Repr

/-- One turn's completion-service behaviour: the delivered tokens, an
error raised after them (if any), and the usage totals of the final
chunk. -/
structure CompletionOutcome where
  tokens : List String
  error : Option String := none
  usage : Option Nat := none
  deriving DecidableEq

/-- `StreamingHandler._check_transfer_suggestion`: any of five fixed
phrases occurs in the lowercased accumulated response. -/
def checkTransferSuggestion (resp : String) : Bool :=
  ["suggest transfer to", "would benefit from talking to", "recommend switching to",
   "might want to speak with", "connect you with"].any (fun p => pyIn p (pyLower resp))

/-- `Orchestrator._handle_transfer_suggestion`: keyword table mapping an
accumulated response to a suggested agent. -/
def handleTransferSuggestion (resp : String) : Option (String × String) :=
  let suggestions : List (String × List String) :=
    [("emotional_vomit_dumper", ["vent", "emotional support", "overwhelmed"]),
     ("solution_finder", ["find solutions", "action plan", "what to do"]),
     ("conflict_solver", ["resolve conflict", "mediation", "both partners"])]
  match suggestions.find? (fun kv => kv.2.any (fun k => pyIn k (pyLower resp))) with
  | some kv => some (kv.1, "Agent suggested transfer")
  | none => none

/-- One token step of `stream_response`: extend the rolling buffer, emit
the content chunk, and emit a transfer-suggestion chunk when the buffer
triggers one. -/
def streamStep (agent : Agent) (st : String × List StreamChunk) (tk : String) :
    String × List StreamChunk :=
  let acc := st.1 ++ tk
  let cs := st.2 ++ [{ type := "content", content := some tk, agent_id := some agent.slug }]
  let cs :=
    if checkTransferSuggestion acc then
      match handleTransferSuggestion acc with
      | some _ => cs ++ [{ type := "transfer", agent_id := some agent.slug }]
      | none => cs
    else cs
  (acc, cs)

/-- `StreamingHandler.stream_response`: content (and possible
transfer-suggestion) chunks for each token; then, if the service raised,
a single error chunk; otherwise the usage metadata chunk when present. -/
def stream_response (agent : Agent) (outcome : CompletionOutcome) : List StreamChunk :=
  let main := (outcome.tokens.foldl (streamStep agent) ("", [])).2
  match outcome.error with
  | some e => main ++ [{ type := "error", content := some ("Stream error: " ++ e),
                         agent_id := some agent.slug }]
  | none =>
      match outcome.usage with
      | some _ => main ++ [{ type := "metadata", agent_id := some agent.slug }]
      | none => main

/-- Steps 1-2 of `Orchestrator.process_message`: adopt the caller's user
id when the session has none, and append the user message. -/
def sessionWithUser (s : SessionState) (message : String) (uid : Option String) : SessionState :=
  let s :=
    match uid, s.user_id with
    | some u, none => { s with user_id := some u }
    | _, _ => s
  s.add_message { role := "user", content := message }

/-- Step 3 of `process_message`: analyze the message and, on a decision,
execute the transfer; a successful transfer to a resolvable new agent
looks up the OLD agent as well and emits the transfer-notification chunk
of `generate_transfer_notification`.  When that old-agent lookup returns
nothing, `generate_transfer_notification` dereferences
`from_agent.slug` on `None` and the resulting uncaught `AttributeError`
aborts the whole turn before anything is yielded — modelled as `none`. -/
def transferStage (reg : AgentMap) (patterns : PatternMap) (s1 : SessionState)
    (message : String) : Option (List StreamChunk × SessionState) :=
  match analyze_message reg patterns message s1.current_agent s1 with
  | none => some ([], s1)
  | some (tgt, trig, reason) =>
      let p := execute_transfer reg s1 tgt reason (some trig) message
      if p.1.success then
        match getAgent reg tgt with
        | some newAgent =>
            match getAgent reg p.1.from_agent with
            | some _ =>
                some ([{ type := "transfer"
                         content := some ("I'm connecting you with " ++ newAgent.name ++
                           " who specializes in " ++ newAgent.description ++
                           ". They'll be better equipped to help you with this.")
                         agent_id := some newAgent.slug }], p.2)
            | none => none
        | none => some ([], p.2)
      else some ([], p.2)

/-- The accumulated assistant text of a chunk list (`response_content`):
the concatenation of the content chunks' text. -/
def responseContent (chunks : List StreamChunk) : String :=
  String.join ((chunks.filter (fun c => c.type == "content")).map (fun c => c.content.getD ""))

/-- `Orchestrator.process_message` for one turn: append the user
message, run the transfer stage (whose `AttributeError` aborts the whole
turn: `none`, no chunks delivered, nothing persisted), resolve the
current agent (error chunk and stop when missing), stream the
completion, and persist the accumulated assistant message to history
when it is non-empty.  Returns the emitted chunks and the resulting
session state. -/
def process_message (reg : AgentMap) (patterns : PatternMap) (s : SessionState)
    (message : String) (uid : Option String) (outcome : CompletionOutcome) :
    Option (List StreamChunk × SessionState) :=
  let s1 := sessionWithUser s message uid
  match transferStage reg patterns s1 message with
  | none => none
  | some tp =>
      match getAgent reg tp.2.current_agent with
      | none =>
          some (tp.1 ++ [{ type := "error", content := some "Agent not found" }], tp.2)
      | some agent =>
          let schunks := stream_response agent outcome
          let rc := responseContent schunks
          let s3 :=
            if rc = "" then tp.2
            else tp.2.add_message { role := "assistant", content := rc,
                                    agent_id := some agent.slug }
          some (tp.1 ++ schunks, s3)

/-- Chunks of a given type in a chunk list. -/
def countType (ty : String) (l : List StreamChunk) : Nat :=
  (l.filter (fun c => c.type == ty)).length

/-! ## Memory modes and coordinator (src/backend/app/orchestrator/memory_modes.py
and memory.py)

Redis is carried as an explicit key-value association list; wall-clock
time and `started_at` are explicit rational timestamps in seconds.
Python truthiness of optional numbers, keyword lists and the message is
modelled by dedicated helpers.  Metric fields no claim consults
(retrieval counts, costs, latency averages) are kept but untouched by the
embedded operations. -/

/-- Memory operation modes (`MemoryMode`). -/
inductive MemoryMode where
  | cache_first
  | always_fresh
  | smart_triggers
  | test_mode
  deriving DecidableEq, Repr

/-- Configuration for a single trigger (`TriggerConfig`); the description
text is omitted. -/
structure TriggerConfig where
  enabled : Bool := true
  threshold : Option Nat := none
  minutes : Option Nat := none
  keywords : Option (List String) := none
  deriving DecidableEq, Repr

/-- Configuration for all smart triggers (`SmartTriggers`), with the
source's default values. -/
structure SmartTriggers where
  message_count : TriggerConfig := { enabled := true, threshold := some 5 }
  time_elapsed : TriggerConfig := { enabled := true, minutes := some 15 }
  agent_transfer : TriggerConfig := { enabled := true }
  emotion_spike : TriggerConfig :=
    { enabled := true, keywords := some ["wściekła", "płaczę", "kryzys", "nie mogę", "panika"] }
  topic_change : TriggerConfig :=
    { enabled := false, keywords := some ["inna sprawa", "zmieniam temat", "a propos", "przy okazji"] }
  important_info : TriggerConfig :=
    { enabled := true, keywords := some ["zdecydowałam", "postanowiłam", "powiem mu", "muszę powiedzieć"] }
  deriving DecidableEq, Repr

/-- Complete memory configuration (`MemoryConfig`). -/
structure MemoryConfig where
  mode : MemoryMode := .cache_first
  cache_ttl : Nat := 1800
  triggers : SmartTriggers := {}
  max_context_tokens : Nat := 2000
  compress_after_tokens : Nat := 1000
  max_memories_per_retrieval : Nat := 10
  save_on_session_end : Bool := true
  save_on_important_info : Bool := true
  log_all_operations : Bool := false
  deriving DecidableEq, Repr

/-- Per-session memory metrics (`MemoryMetrics`); `started_at` is a
timestamp in seconds. -/
structure MemoryMetrics where
  session_id : String
  mode : MemoryMode
  retrieval_count : Nat := 0
  cache_hits : Nat := 0
  cache_misses : Nat := 0
  total_tokens_retrieved : Nat := 0
  total_cost : ℚ := 0
  avg_retrieval_time_ms : ℚ := 0
  triggers_fired : List (String × Nat) := []
  started_at : ℚ := 0
  deriving DecidableEq

/-- `MemoryMetrics.add_trigger`: create the named counter at 0 when
absent, then increment it. -/
def MemoryMetrics.add_trigger (m : MemoryMetrics) (trigger_type : String) : MemoryMetrics :=
  { m with triggers_fired :=
      dictSet m.triggers_fired trigger_type ((dictGet m.triggers_fired trigger_type).getD 0 + 1) }

/-- The coordinator's mode state: the global configuration and the
per-session configuration and metrics dictionaries. -/
structure MemoryCoordinator where
  global_config : MemoryConfig
  session_configs : List (String × MemoryConfig) := []
  session_metrics : List (String × MemoryMetrics) := []

/-- `MemoryCoordinator.get_session_config`: session override or the
global default. -/
def getSessionConfig (c : MemoryCoordinator) (sid : String) : MemoryConfig :=
  (dictGet c.session_configs sid).getD c.global_config

/-- The Redis cache as a key-value map. -/
abbrev RedisStore : Type := List (String × String)

/-- Python truthiness of an optional integer field (None and 0 are
falsy). -/
def optNatTruthy : Option Nat → Bool
  | none => false
  | some k => decide (k ≠ 0)

/-- Python truthiness of an optional keyword list (None and [] are
falsy). -/
def optListTruthy : Option (List String) → Bool
  | none => false
  | some l => !l.isEmpty

/-- The last `n` elements of a list (Python `l[-n:]`). -/
def lastN {α : Type} (n : Nat) (l : List α) : List α :=
  l.drop (l.length - n)

/-- Message-count trigger of `_check_smart_triggers`: enabled, truthy
threshold, and the history length divides evenly; fires with a counter
update when metrics exist. -/
def fireMessageCount (st : SessionState) (cfg : MemoryConfig)
    (metrics : Option MemoryMetrics) : Option (Option MemoryMetrics) :=
  if cfg.triggers.message_count.enabled &&
     optNatTruthy cfg.triggers.message_count.threshold &&
     decide (st.conversation_history.length % cfg.triggers.message_count.threshold.getD 1 = 0) then
    some (metrics.map (fun m => m.add_trigger "message_count"))
  else none

/-- Time-elapsed trigger: enabled, truthy minutes, metrics present, and
the minutes elapsed since the session started reach the bound. -/
def fireTimeElapsed (cfg : MemoryConfig) (metrics : Option MemoryMetrics)
    (now : ℚ) : Option (Option MemoryMetrics) :=
  if cfg.triggers.time_elapsed.enabled && optNatTruthy cfg.triggers.time_elapsed.minutes then
    match metrics with
    | some m =>
        if (cfg.triggers.time_elapsed.minutes.getD 0 : ℚ) ≤ (now - m.started_at) / 60 then
          some (some (m.add_trigger "time_elapsed"))
        else none
    | none => none
  else none

/-- Agent-transfer trigger: enabled, a transfer exists, and one of the
last two history messages carries the `transfer_event` metadata flag. -/
def fireAgentTransfer (st : SessionState) (cfg : MemoryConfig)
    (metrics : Option MemoryMetrics) : Option (Option MemoryMetrics) :=
  if cfg.triggers.agent_transfer.enabled then
    if !st.transfer_history.isEmpty &&
       (lastN 2 st.conversation_history).any (fun m => m.transfer_event_flag) then
      some (metrics.map (fun m => m.add_trigger "agent_transfer"))
    else none
  else none

/-- A keyword trigger (emotion spike, topic change, important info):
truthy message, enabled, truthy keyword list, and some keyword contained
in the lowercased message. -/
def fireKeywordTrigger (name : String) (tc : TriggerConfig)
    (message : Option String) (metrics : Option MemoryMetrics) :
    Option (Option MemoryMetrics) :=
  match message with
  | some msg =>
      if !(msg == "") && tc.enabled && optListTruthy tc.keywords &&
         (tc.keywords.getD []).any (fun kw => pyIn kw (pyLower msg)) then
        some (metrics.map (fun m => m.add_trigger name))
      else none
  | none => none

/-- `MemoryCoordinator._check_smart_triggers`: evaluate the triggers in
source order, short-circuiting on the first that fires; returns whether
to refresh and the (possibly updated) metrics. -/
def checkSmartTriggers (st : SessionState) (message : Option String)
    (cfg : MemoryConfig) (metrics : Option MemoryMetrics) (now : ℚ) :
    Bool × Option MemoryMetrics :=
  match fireMessageCount st cfg metrics with
  | some m' => (true, m')
  | none =>
    match fireTimeElapsed cfg metrics now with
    | some m' => (true, m')
    | none =>
      match fireAgentTransfer st cfg metrics with
      | some m' => (true, m')
      | none =>
        match fireKeywordTrigger "emotion_spike" cfg.triggers.emotion_spike message metrics with
        | some m' => (true, m')
        | none =>
          match fireKeywordTrigger "topic_change" cfg.triggers.topic_change message metrics with
          | some m' => (true, m')
          | none =>
            match fireKeywordTrigger "important_info" cfg.triggers.important_info message metrics with
            | some m' => (true, m')
            | none => (false, metrics)

/-- Store updated metrics back into the coordinator (the source mutates
the metrics object in place). -/
def setMetrics (c : MemoryCoordinator) (sid : String) :
    Option MemoryMetrics → MemoryCoordinator
  | some m => { c with session_metrics := dictSet c.session_metrics sid m }
  | none => c

/-- `MemoryCoordinator.should_refresh_memory`: always refresh under
`always_fresh`; under `cache_first` refresh exactly when no cached
context keyed by the session id exists; under `smart_triggers` and
`test_mode` evaluate the smart triggers. -/
def should_refresh_memory (c : MemoryCoordinator) (redis : RedisStore)
    (st : SessionState) (message : Option String) (now : ℚ) :
    Bool × MemoryCoordinator :=
  let cfg := getSessionConfig c st.session_id
  match cfg.mode with
  | .always_fresh => (true, c)
  | .cache_first => ((dictGet redis ("context:" ++ st.session_id)).isNone, c)
  | .smart_triggers =>
      let r := checkSmartTriggers st message cfg (dictGet c.session_metrics st.session_id) now
      (r.1, setMetrics c st.session_id r.2)
  | .test_mode =>
      let r := checkSmartTriggers st message cfg (dictGet c.session_metrics st.session_id) now
      (r.1, setMetrics c st.session_id r.2)

/-- The value of a named trigger counter (0 when never fired). -/
def firedCount (m : MemoryMetrics) (name : String) : Nat :=
  (dictGet m.triggers_fired name).getD 0

/-! ## MCP transfer protocol (src/mcp_server/transfer_protocols.py)

The confidence-scored engine.  Confidence values are Python floats whose
literals are all multiples of 0.05 and which are only added, subtracted,
clamped and compared; they are embedded exactly as integer hundredths
(0.7 becomes 70).  `datetime.now() - last_transfer_time` is carried as an
explicit optional elapsed-seconds field on the context. -/

/-- Types of transfer triggers (`TransferTriggerType`). -/
inductive TransferTriggerType where
  | keyword
  | phrase
  | emotion
  | intent
  | pattern
  | escalation
  deriving DecidableEq, Repr

/-- Individual transfer trigger definition (`TransferTrigger`); the
confidence threshold is in hundredths. -/
structure TransferTrigger where
  pattern : String
  target_agent : String
  trigger_type : TransferTriggerType
  confidence_threshold : Int := 70
  description : String := ""
  priority : Nat := 1
  requires_confirmation : Bool := false
  deriving DecidableEq, Repr

/-- `TransferTrigger.matches`: lowercased containment for every branch;
the `PATTERN` branch runs `re.search`, which coincides with containment
for metacharacter-free patterns (no initialized trigger uses `PATTERN`). -/
def TransferTrigger.tmatches (t : TransferTrigger) (text : String) : Bool :=
  match t.trigger_type with
  | .pattern => pyIn (pyLower t.pattern) (pyLower text)
  | _ => pyIn (pyLower t.pattern) (pyLower text)

/-- Context information for agent transfers (`TransferContext`);
`seconds_since_last_transfer` models `datetime.now() -
last_transfer_time` (None when no transfer happened yet). -/
structure TransferContext where
  session_id : String
  user_id : String
  current_agent : String
  previous_agent : Option String := none
  conversation_history : List String := []
  emotional_state : String := "neutral"
  topic : String := "general"
  urgency_level : String := "normal"
  transfer_count : Nat := 0
  seconds_since_last_transfer : Option ℚ := none
  deriving DecidableEq, Repr

/-- Whether the last transfer happened less than a minute ago. -/
def recentTransfer (ctx : TransferContext) : Bool :=
  match ctx.seconds_since_last_transfer with
  | some secs => decide (secs < 60)
  | none => false

/-- The accumulated `base_confidence` of
`TransferProtocol._calculate_confidence`, before the final clamp, in
hundredths: base 0.5, raised to 0.8 on a containment match, boosted for
a distressed state targeting the emotional agent and for high urgency
with priority at least 8, dampened past five transfers and within the
one-minute cooldown. -/
def raw_confidence (t : TransferTrigger) (message : String) (ctx : TransferContext) : Int :=
  let base : Int := 50
  let base := if pyIn (pyLower t.pattern) (pyLower message) then (80 : Int) else base
  let base :=
    if ctx.emotional_state = "distressed" ∧ pyIn "emotional_vomit_dumper" t.target_agent = true then
      base + 20
    else base
  let base := if ctx.urgency_level = "high" ∧ 8 ≤ t.priority then base + 15 else base
  let base := if 5 < ctx.transfer_count then base - 10 else base
  if recentTransfer ctx = true then base - 20 else base

/-- `TransferProtocol._calculate_confidence` in hundredths: the
accumulated base, clamped to [0, 1] (`min(max(base, 0.0), 1.0)`). -/
def calc_confidence (t : TransferTrigger) (message : String) (ctx : TransferContext) : Int :=
  iMin (iMax (raw_confidence t message ctx) 0) 100

/-- Stable insertion into a priority-descending list: the new trigger
goes before the first strictly lower priority, after equals. -/
def insertByPriority (t : TransferTrigger) : List TransferTrigger → List TransferTrigger
  | [] => [t]
  | u :: rest =>
      if u.priority ≤ t.priority then t :: u :: rest else u :: insertByPriority t rest

/-- Python's stable `sorted(..., key=priority, reverse=True)`. -/
def sortByPriorityDesc (l : List TransferTrigger) : List TransferTrigger :=
  l.foldr insertByPriority []

/-- The selection loop of `analyze_transfer_request` over the
priority-sorted triggers: skip triggers targeting the current agent; on
a match compute the confidence; keep the trigger when the confidence
reaches its threshold and strictly beats the best score so far. -/
def selectLoop (message : String) (ctx : TransferContext) :
    List TransferTrigger → Option (TransferTrigger × Int) → Int → Option (TransferTrigger × Int)
  | [], best, _ => best
  | t :: ts, best, best_score =>
      if t.target_agent = ctx.current_agent then selectLoop message ctx ts best best_score
      else if t.tmatches message = true then
        let c := calc_confidence t message ctx
        if t.confidence_threshold ≤ c ∧ best_score < c then
          selectLoop message ctx ts (some (t, c)) c
        else selectLoop message ctx ts best best_score
      else selectLoop message ctx ts best best_score

/-- `TransferProtocol.analyze_transfer_request`: run the selection loop
over the priority-sorted triggers and return (target agent, trigger,
confidence). -/
def analyze_transfer_request (triggers : List TransferTrigger) (message : String)
    (ctx : TransferContext) : Option (String × TransferTrigger × Int) :=
  (selectLoop message ctx (sortByPriorityDesc triggers) none 0).map
    (fun p => (p.1.target_agent, p.1, p.2))

/-- A trigger fires for a message in a context: it targets another
agent, matches the text, and its confidence reaches its threshold. -/
def Fires (message : String) (ctx : TransferContext) (t : TransferTrigger) : Prop :=
  t.target_agent ≠ ctx.current_agent ∧ t.tmatches message = true ∧
    t.confidence_threshold ≤ calc_confidence t message ctx

instance (message : String) (ctx : TransferContext) (t : TransferTrigger) :
    Decidable (Fires message ctx t) := by
  unfold Fires; infer_instance

/-- The trigger list `TransferProtocol._initialize_triggers` builds. -/
def initTriggers : List TransferTrigger :=
  [ -- EMOTIONAL VOMIT DUMPER triggers
   { pattern := "I need to express my emotions", target_agent := "emotional_vomit_dumper",
     trigger_type := .phrase, confidence_threshold := 90, description := "Need emotional expression" },
   { pattern := "I'm feeling overwhelmed", target_agent := "emotional_vomit_dumper",
     trigger_type := .phrase, confidence_threshold := 80, description := "Feeling overwhelmed" },
   { pattern := "I need to vent", target_agent := "emotional_vomit_dumper",
     trigger_type := .phrase, confidence_threshold := 90, description := "Need to vent" },
   { pattern := "emotional dump", target_agent := "emotional_vomit_dumper",
     trigger_type := .keyword, confidence_threshold := 80, description := "Emotional dumping" },
   { pattern := "I'm upset about", target_agent := "emotional_vomit_dumper",
     trigger_type := .phrase, confidence_threshold := 70, description := "Upset feelings" },
   { pattern := "I'm so angry", target_agent := "emotional_vomit_dumper",
     trigger_type := .phrase, confidence_threshold := 80, description := "Anger expression" },
   { pattern := "I'm hurt", target_agent := "emotional_vomit_dumper",
     trigger_type := .phrase, confidence_threshold := 70, description := "Hurt feelings" },
   { pattern := "I'm devastated", target_agent := "emotional_vomit_dumper",
     trigger_type := .phrase, confidence_threshold := 90, description := "Devastation" },
   { pattern := "I can't handle", target_agent := "emotional_vomit_dumper",
     trigger_type := .phrase, confidence_threshold := 80, description := "Can't handle" },
   { pattern := "I'm breaking down", target_agent := "emotional_vomit_dumper",
     trigger_type := .phrase, confidence_threshold := 90, description := "Breaking down" },
   -- SOLUTION FINDER triggers
   { pattern := "I feel better now", target_agent := "solution_finder",
     trigger_type := .phrase, confidence_threshold := 80, description := "Ready for solutions" },
   { pattern := "I'm ready to talk about solutions", target_agent := "solution_finder",
     trigger_type := .phrase, confidence_threshold := 90, description := "Ready for solutions" },
   { pattern := "I want to work on this", target_agent := "solution_finder",
     trigger_type := .phrase, confidence_threshold := 80, description := "Want to work on it" },
   { pattern := "what should I do", target_agent := "solution_finder",
     trigger_type := .phrase, confidence_threshold := 70, description := "Asking for action" },
   { pattern := "I need help with", target_agent := "solution_finder",
     trigger_type := .phrase, confidence_threshold := 70, description := "Need help" },
   { pattern := "how can I fix", target_agent := "solution_finder",
     trigger_type := .phrase, confidence_threshold := 80, description := "Want to fix" },
   { pattern := "I need a plan", target_agent := "solution_finder",
     trigger_type := .phrase, confidence_threshold := 90, description := "Need planning" },
   { pattern := "what's my next step", target_agent := "solution_finder",
     trigger_type := .phrase, confidence_threshold := 80, description := "Next steps" },
   { pattern := "I want to change", target_agent := "solution_finder",
     trigger_type := .phrase, confidence_threshold := 70, description := "Want change" },
   { pattern := "help me figure out", target_agent := "solution_finder",
     trigger_type := .phrase, confidence_threshold := 80, description := "Need figuring out" },
   -- CONFLICT SOLVER triggers
   { pattern := "we're fighting", target_agent := "conflict_solver",
     trigger_type := .phrase, confidence_threshold := 80, description := "Fighting" },
   { pattern := "we had an argument", target_agent := "conflict_solver",
     trigger_type := .phrase, confidence_threshold := 80, description := "Argument" },
   { pattern := "we're in conflict", target_agent := "conflict_solver",
     trigger_type := .phrase, confidence_threshold := 90, description := "In conflict" },
   { pattern := "we can't agree", target_agent := "conflict_solver",
     trigger_type := .phrase, confidence_threshold := 70, description := "Can't agree" },
   { pattern := "we need mediation", target_agent := "conflict_solver",
     trigger_type := .phrase, confidence_threshold := 90, description := "Need mediation" },
   { pattern := "we're having problems", target_agent := "conflict_solver",
     trigger_type := .phrase, confidence_threshold := 70, description := "Having problems" },
   { pattern := "we need to resolve", target_agent := "conflict_solver",
     trigger_type := .phrase, confidence_threshold := 80, description := "Need resolution" },
   { pattern := "we're stuck", target_agent := "conflict_solver",
     trigger_type := .phrase, confidence_threshold := 70, description := "Stuck in conflict" },
   { pattern := "we keep arguing", target_agent := "conflict_solver",
     trigger_type := .phrase, confidence_threshold := 80, description := "Keep arguing" },
   { pattern := "we're at an impasse", target_agent := "conflict_solver",
     trigger_type := .phrase, confidence_threshold := 90, description := "At impasse" },
   -- COMMUNICATION SIMULATOR triggers
   { pattern := "I want to practice", target_agent := "communication_simulator",
     trigger_type := .phrase, confidence_threshold := 80, description := "Want practice" },
   { pattern := "I need to rehearse", target_agent := "communication_simulator",
     trigger_type := .phrase, confidence_threshold := 90, description := "Need rehearsal" },
   { pattern := "I'm worried about saying", target_agent := "communication_simulator",
     trigger_type := .phrase, confidence_threshold := 80, description := "Worried about saying" },
   { pattern := "I don't know how to bring this up", target_agent := "communication_simulator",
     trigger_type := .phrase, confidence_threshold := 80, description := "Don't know how to bring up" },
   { pattern := "practice conversation", target_agent := "communication_simulator",
     trigger_type := .phrase, confidence_threshold := 90, description := "Practice conversation" },
   { pattern := "I'm nervous about talking", target_agent := "communication_simulator",
     trigger_type := .phrase, confidence_threshold := 80, description := "Nervous about talking" },
   { pattern := "I need to prepare", target_agent := "communication_simulator",
     trigger_type := .phrase, confidence_threshold := 70, description := "Need preparation" },
   { pattern := "I want to role-play", target_agent := "communication_simulator",
     trigger_type := .phrase, confidence_threshold := 90, description := "Want role-play" },
   { pattern := "how should I say", target_agent := "communication_simulator",
     trigger_type := .phrase, confidence_threshold := 80, description := "How to say" },
   { pattern := "I need feedback", target_agent := "communication_simulator",
     trigger_type := .phrase, confidence_threshold := 70, description := "Need feedback" },
   -- RELATIONSHIP UPGRADER triggers
   { pattern := "I want to level up", target_agent := "relationship_upgrader",
     trigger_type := .phrase, confidence_threshold := 80, description := "Want to level up" },
   { pattern := "relationship games", target_agent := "relationship_upgrader",
     trigger_type := .phrase, confidence_threshold := 90, description := "Relationship games" },
   { pattern := "fun challenges", target_agent := "relationship_upgrader",
     trigger_type := .phrase, confidence_threshold := 80, description := "Fun challenges" },
   { pattern := "make it exciting", target_agent := "relationship_upgrader",
     trigger_type := .phrase, confidence_threshold := 70, description := "Make exciting" },
   { pattern := "relationship activities", target_agent := "relationship_upgrader",
     trigger_type := .phrase, confidence_threshold := 80, description := "Relationship activities" },
   { pattern := "we want to improve our relationship", target_agent := "relationship_upgrader",
     trigger_type := .phrase, confidence_threshold := 80, description := "Want improvement" },
   { pattern := "I want to work on us", target_agent := "relationship_upgrader",
     trigger_type := .phrase, confidence_threshold := 80, description := "Work on us" },
   { pattern := "relationship goals", target_agent := "relationship_upgrader",
     trigger_type := .phrase, confidence_threshold := 80, description := "Relationship goals" },
   { pattern := "make things better", target_agent := "relationship_upgrader",
     trigger_type := .phrase, confidence_threshold := 70, description := "Make things better" },
   { pattern := "strengthen our bond", target_agent := "relationship_upgrader",
     trigger_type := .phrase, confidence_threshold := 80, description := "Strengthen bond" },
   -- BREAKTHROUGH MANAGER triggers (crisis situations)
   { pattern := "I think we should break up", target_agent := "breakthrough_manager",
     trigger_type := .phrase, confidence_threshold := 90, description := "Breakup consideration",
     priority := 10 },
   { pattern := "I want to end this", target_agent := "breakthrough_manager",
     trigger_type := .phrase, confidence_threshold := 80, description := "Want to end",
     priority := 10 },
   { pattern := "I can't do this anymore", target_agent := "breakthrough_manager",
     trigger_type := .phrase, confidence_threshold := 80, description := "Can't continue",
     priority := 10 },
   { pattern := "relationship is over", target_agent := "breakthrough_manager",
     trigger_type := .phrase, confidence_threshold := 90, description := "Relationship over",
     priority := 10 },
   { pattern := "I'm done", target_agent := "breakthrough_manager",
     trigger_type := .phrase, confidence_threshold := 70, description := "Done with relationship",
     priority := 9 },
   { pattern := "I want out", target_agent := "breakthrough_manager",
     trigger_type := .phrase, confidence_threshold := 80, description := "Want out",
     priority := 9 },
   { pattern := "I'm leaving", target_agent := "breakthrough_manager",
     trigger_type := .phrase, confidence_threshold := 80, description := "Leaving",
     priority := 10 },
   { pattern := "this is hopeless", target_agent := "breakthrough_manager",
     trigger_type := .phrase, confidence_threshold := 70, description := "Hopeless",
     priority := 8 },
   { pattern := "I give up", target_agent := "breakthrough_manager",
     trigger_type := .phrase, confidence_threshold := 80, description := "Give up",
     priority := 9 },
   { pattern := "it's too late", target_agent := "breakthrough_manager",
     trigger_type := .phrase, confidence_threshold := 70, description := "Too late",
     priority := 8 },
   -- MISUNDERSTANDING PROTECTOR triggers (analysis needed)
   { pattern := "I don't understand", target_agent := "misunderstanding_protector",
     trigger_type := .phrase, confidence_threshold := 70, description := "Don't understand" },
   { pattern := "that's not what I meant", target_agent := "misunderstanding_protector",
     trigger_type := .phrase, confidence_threshold := 80, description := "Not what meant" },
   { pattern := "you're misunderstanding", target_agent := "misunderstanding_protector",
     trigger_type := .phrase, confidence_threshold := 80, description := "Misunderstanding" },
   { pattern := "I didn't say that", target_agent := "misunderstanding_protector",
     trigger_type := .phrase, confidence_threshold := 80, description := "Didn't say that" },
   { pattern := "that's not right", target_agent := "misunderstanding_protector",
     trigger_type := .phrase, confidence_threshold := 60, description := "Not right" },
   { pattern := "I'm confused", target_agent := "misunderstanding_protector",
     trigger_type := .phrase, confidence_threshold := 70, description := "Confused" },
   { pattern := "I need clarity", target_agent := "misunderstanding_protector",
     trigger_type := .phrase, confidence_threshold := 80, description := "Need clarity" },
   { pattern := "help me understand", target_agent := "misunderstanding_protector",
     trigger_type := .phrase, confidence_threshold := 80, description := "Help understand" },
   { pattern := "I'm lost", target_agent := "misunderstanding_protector",
     trigger_type := .phrase, confidence_threshold := 60, description := "Lost" },
   { pattern := "analyze this", target_agent := "misunderstanding_protector",
     trigger_type := .phrase, confidence_threshold := 90, description := "Analyze" }]

/-- A recorded transfer (`execute_transfer`'s `transfer_record`); the
timestamp is omitted. -/
structure TransferRecord where
  session_id : String
  user_id : String
  from_agent : String
  to_agent : String
  trigger_pattern : String
  trigger_description : String
  confidence : Int
  requires_confirmation : Bool
  deriving DecidableEq, Repr

/-- `TransferProtocol.execute_transfer`: unconditionally append the
record to `transfer_history` and update the context (confidence is
recomputed against the empty message, as in the source). -/
def mcp_execute_transfer (history : List TransferRecord) (from_agent to_agent : String)
    (t : TransferTrigger) (ctx : TransferContext) :
    TransferRecord × List TransferRecord × TransferContext :=
  let record : TransferRecord :=
    { session_id := ctx.session_id
      user_id := ctx.user_id
      from_agent := from_agent
      to_agent := to_agent
      trigger_pattern := t.pattern
      trigger_description := t.description
      confidence := calc_confidence t "" ctx
      requires_confirmation := t.requires_confirmation }
  (record, history ++ [record],
   { ctx with
     previous_agent := some from_agent
     current_agent := to_agent
     transfer_count := ctx.transfer_count + 1
     seconds_since_last_transfer := some 0 })

/-- `TransferProtocol.get_transfer_history` for a given session id: the
last `limit` records of the session-filtered history. -/
def get_transfer_history (history : List TransferRecord) (sid : String)
    (limit : Nat) : List TransferRecord :=
  lastN limit (history.filter (fun r => r.session_id == sid))

/-- `TransferProtocol.validate_transfer_chain`: unhealthy when the
transfer count exceeds 10, or when at least 3 of the last 5 recorded
transfers for the session target at most two distinct agents. -/
def validate_transfer_chain (history : List TransferRecord) (ctx : TransferContext) : Bool :=
  if 10 < ctx.transfer_count then false
  else
    let recent := get_transfer_history history ctx.session_id 5
    if 3 ≤ recent.length ∧ ((recent.map (fun r => r.to_agent)).dedup).length ≤ 2 then false
    else true

/-- The texts of the content chunks of a chunk list, in order. -/
def contentTexts (l : List StreamChunk) : List String :=
  (l.filter (fun c => c.type == "content")).map (fun c => c.content.getD "")

/-! ## Concrete fixtures for the closed instance theorems -/

/-- A one-agent registry map for exercising `execute_transfer`. -/
def wAgent : Agent :=
  { slug := "solution_finder", name := "Solution Finder"
    description := "Creates actionable plans for relationship improvement", system_prompt := "" }

/-- Registry containing only `solution_finder`. -/
def wReg : AgentMap := [("solution_finder", wAgent)]

/-- A fresh session on the default initial agent. -/
def wSession : SessionState := initialSession "s1" "misunderstanding_protector"

/-- One successful manual transfer against `wReg`. -/
def opsW : List SessionOp := [.xfer wReg "solution_finder" .user_request (some "manual") "hi"]

/-- The transfer event `opsW` records. -/
def evW : TransferEvent :=
  { from_agent := "misunderstanding_protector", to_agent := "solution_finder"
    reason := .user_request, trigger := some "manual", user_message := "hi"
    context := some { session_id := "s1", message_count := 0, previous_transfers := 0 } }

/-- A database-loaded agent that is not among the built-in defaults. -/
def stubAgent : Agent :=
  { slug := "db_agent", name := "DB Agent", description := "", system_prompt := "" }

/-- A registry whose cache holds `stubAgent` but has expired. -/
def staleRegistry : AgentRegistryState :=
  { agents := [("db_agent", stubAgent)], cache_ttl := 300, last_loaded := some 0 }

/-- The built-in default registry map. -/
def c5Reg : AgentMap := loadDefaultsInto []

/-- The first built-in agent (`misunderstanding_protector`). -/
def mpAgent : Agent := defaultAgents.get ⟨0, by decide⟩

/-- A message carrying both an explicit transfer request and an implicit
trigger of `misunderstanding_protector`. -/
def c5Msg : String := "I need to vent, transfer me to the Solution finder"

/-- A registry holding one agent with no triggers, for the streaming
turn. -/
def c6Agent : Agent :=
  { slug := "misunderstanding_protector", name := "Misunderstanding Protector"
    description := "Analyzes communication patterns and prevents misunderstandings"
    system_prompt := "" }

/-- Registry containing only `c6Agent`. -/
def c6Reg : AgentMap := [("misunderstanding_protector", c6Agent)]

/-- A fresh session for the streaming turn. -/
def c6Session : SessionState := initialSession "s6" "misunderstanding_protector"

/-- A completion stream that delivers one token and then raises. -/
def c6Outcome : CompletionOutcome := { tokens := ["Hel"], error := some "boom" }

/-- Coordinator whose resolved mode is `always_fresh`. -/
def afCoordinator : MemoryCoordinator := { global_config := { mode := .always_fresh } }

/-- Coordinator whose resolved mode is `cache_first`. -/
def cfCoordinator : MemoryCoordinator := { global_config := { mode := .cache_first } }

/-- A fresh session for the memory-mode theorems. -/
def st8 : SessionState := initialSession "s8" "misunderstanding_protector"

/-- Fresh metrics for session `s9`. -/
def m9 : MemoryMetrics := { session_id := "s9", mode := .smart_triggers }

/-- Coordinator in `smart_triggers` mode with metrics registered for
`s9`. -/
def stCoordinator : MemoryCoordinator :=
  { global_config := { mode := .smart_triggers }, session_metrics := [("s9", m9)] }

/-- A fresh session (history length 0, divisible by 5) for the
message-count trigger. -/
def st9 : SessionState := initialSession "s9" "misunderstanding_protector"

/-- The initialized trigger `"I need to vent" -> emotional_vomit_dumper`
(priority 1, threshold 0.9). -/
def trigVent : TransferTrigger :=
  { pattern := "I need to vent", target_agent := "emotional_vomit_dumper"
    trigger_type := .phrase, confidence_threshold := 90, description := "Need to vent" }

/-- The initialized trigger `"I'm done" -> breakthrough_manager`
(priority 9, threshold 0.7). -/
def trigDone : TransferTrigger :=
  { pattern := "I'm done", target_agent := "breakthrough_manager"
    trigger_type := .phrase, confidence_threshold := 70
    description := "Done with relationship", priority := 9 }

/-- A distressed context on the misunderstanding agent. -/
def exCtx : TransferContext :=
  { session_id := "s", user_id := "u", current_agent := "misunderstanding_protector"
    emotional_state := "distressed" }

/-- A message matching both `trigDone` (priority 9) and `trigVent`
(priority 1). -/
def exMsg : String := "I'm done and I need to vent"

/-- Starting context for the oscillation scenario. -/
def oscCtx0 : TransferContext :=
  { session_id := "s", user_id := "u", current_agent := "misunderstanding_protector" }

/-- Oscillation transfer 1: A to B. -/
def oscStep1 : TransferRecord × List TransferRecord × TransferContext :=
  mcp_execute_transfer [] "misunderstanding_protector" "emotional_vomit_dumper" trigVent oscCtx0

/-- Oscillation transfer 2: B to A. -/
def oscStep2 : TransferRecord × List TransferRecord × TransferContext :=
  mcp_execute_transfer oscStep1.2.1 "emotional_vomit_dumper" "misunderstanding_protector"
    trigVent oscStep1.2.2

/-- Oscillation transfer 3: A to B. -/
def oscStep3 : TransferRecord × List TransferRecord × TransferContext :=
  mcp_execute_transfer oscStep2.2.1 "misunderstanding_protector" "emotional_vomit_dumper"
    trigVent oscStep2.2.2

/-- Oscillation transfer 4: B to A. -/
def oscStep4 : TransferRecord × List TransferRecord × TransferContext :=
  mcp_execute_transfer oscStep3.2.1 "emotional_vomit_dumper" "misunderstanding_protector"
    trigVent oscStep3.2.2

/-- The fifth oscillating transfer: A to B again. -/
def oscStep5 : TransferRecord × List TransferRecord × TransferContext :=
  mcp_execute_transfer oscStep4.2.1 "misunderstanding_protector" "emotional_vomit_dumper"
    trigVent oscStep4.2.2

end Relatrix

namespace Relatrix

/-! ## Theorems -/

/-- Helper: `add_transfer` alone re-establishes the current-agent
invariant, since `getLast?` of an appended history is the new event. -/
theorem lastToAgentD_append (l : List TransferEvent) (ev : TransferEvent) (d : String) :
    lastToAgentD (l ++ [ev]) d = ev.to_agent := by
  simp [lastToAgentD, List.getLast?_append]

/-- Helper: one step preserves the invariant relating `current_agent` to
the last transfer's target. -/
theorem applyOp_invariant (d : String) (s : SessionState) (op : SessionOp)
    (h : s.current_agent = lastToAgentD s.transfer_history d) :
    (applyOp s op).current_agent = lastToAgentD (applyOp s op).transfer_history d := by
  cases op with
  | msg m => simpa [applyOp, SessionState.add_message] using h
  | xfer reg tgt reason trig umsg =>
      simp only [applyOp, execute_transfer]
      cases getAgent reg tgt with
      | none => simpa using h
      | some a => simp [SessionState.add_transfer, lastToAgentD_append]

/-- Helper: the invariant is preserved by any run of operations. -/
theorem runOps_invariant (d : String) (ops : List SessionOp) (s : SessionState)
    (h : s.current_agent = lastToAgentD s.transfer_history d) :
    (runOps s ops).current_agent = lastToAgentD (runOps s ops).transfer_history d := by
  induction ops generalizing s with
  | nil => simpa [runOps] using h
  | cons op rest ih =>
      have h1 := applyOp_invariant d s op h
      simpa [runOps] using ih (applyOp s op) h1

/-- C1: starting from a fresh session, after any sequence of operations
(message appends and transfer attempts), `current_agent` equals the
`to_agent` of the last recorded transfer event, or the initial agent when
the transfer history is empty. -/
theorem current_agent_matches_last_transfer (sid init : String) (ops : List SessionOp) :
    (runOps (initialSession sid init) ops).current_agent =
      lastToAgentD (runOps (initialSession sid init) ops).transfer_history init := by
  exact runOps_invariant init ops (initialSession sid init) rfl

/-- C2: `execute_transfer` with an unknown target returns a
`success=false` event carrying the `Target agent not found` error and
leaves the session unchanged; with a known target it returns a successful
event, appends it to the transfer history, and sets `current_agent` to
the target in the same update, leaving the conversation history alone. -/
theorem execute_transfer_spec (reg : AgentMap) (s : SessionState) (tgt : String)
    (reason : TransferReason) (trig : Option String) (umsg : String) :
    (getAgent reg tgt = none →
      (execute_transfer reg s tgt reason trig umsg).1.success = false ∧
      (execute_transfer reg s tgt reason trig umsg).1.error = some "Target agent not found" ∧
      (execute_transfer reg s tgt reason trig umsg).2 = s) ∧
    (getAgent reg tgt ≠ none →
      (execute_transfer reg s tgt reason trig umsg).1.success = true ∧
      (execute_transfer reg s tgt reason trig umsg).1.error = none ∧
      (execute_transfer reg s tgt reason trig umsg).2.transfer_history =
        s.transfer_history ++ [(execute_transfer reg s tgt reason trig umsg).1] ∧
      (execute_transfer reg s tgt reason trig umsg).2.current_agent = tgt ∧
      (execute_transfer reg s tgt reason trig umsg).2.conversation_history =
        s.conversation_history) := by
  constructor
  · intro h
    simp [execute_transfer, h]
  · intro h
    cases hq : getAgent reg tgt with
    | none => exact absurd hq h
    | some a => simp [execute_transfer, hq, SessionState.add_transfer]

/-- Witness for C2 at a concrete registry: an unknown slug leaves the
session unchanged, a known slug becomes the current agent. -/
theorem execute_transfer_spec_witness :
    (execute_transfer wReg wSession "nope" .user_request none "hi").1.success = false ∧
    (execute_transfer wReg wSession "nope" .user_request none "hi").2 = wSession ∧
    (execute_transfer wReg wSession "solution_finder" .user_request none "hi").2.current_agent =
      "solution_finder" := by
  have h1 := (execute_transfer_spec wReg wSession "nope" .user_request none "hi").1 (by decide)
  have h2 := (execute_transfer_spec wReg wSession "solution_finder" .user_request none "hi").2
    (by decide)
  exact ⟨h1.1, h1.2.2, h2.2.2.2.1⟩

/-- Helper: one step keeps every stored transfer event successful and
error-free. -/
theorem applyOp_history_success (s : SessionState) (op : SessionOp)
    (h : ∀ ev ∈ s.transfer_history, ev.success = true ∧ ev.error = none) :
    ∀ ev ∈ (applyOp s op).transfer_history, ev.success = true ∧ ev.error = none := by
  cases op with
  | msg m => simpa [applyOp, SessionState.add_message] using h
  | xfer reg tgt reason trig umsg =>
      simp only [applyOp, execute_transfer]
      cases hq : getAgent reg tgt with
      | none => simpa using h
      | some a =>
          intro ev hev
          simp only [SessionState.add_transfer, List.mem_append, List.mem_singleton] at hev
          rcases hev with hev | hev
          · exact h ev hev
          · subst hev; exact ⟨rfl, rfl⟩

/-- Helper: a run of operations keeps every stored transfer event
successful and error-free. -/
theorem runOps_history_success (ops : List SessionOp) (s : SessionState)
    (h : ∀ ev ∈ s.transfer_history, ev.success = true ∧ ev.error = none) :
    ∀ ev ∈ (runOps s ops).transfer_history, ev.success = true ∧ ev.error = none := by
  induction ops generalizing s with
  | nil => simpa [runOps] using h
  | cons op rest ih =>
      have h1 := applyOp_history_success s op h
      simpa [runOps] using ih (applyOp s op) h1

/-- C10: in a session mutated only through `execute_transfer` (and
message appends), every stored transfer event has `success=true` and no
error: failed transfers are returned to the caller but never recorded. -/
theorem transfer_history_only_successful (sid init : String) (ops : List SessionOp)
    (ev : TransferEvent)
    (h : ev ∈ (runOps (initialSession sid init) ops).transfer_history) :
    ev.success = true ∧ ev.error = none := by
  exact runOps_history_success ops (initialSession sid init) (by simp [initialSession]) ev h

/-- Witness for C10: the event recorded by one successful transfer. -/
theorem transfer_history_only_successful_witness :
    evW ∈ (runOps (initialSession "s1" "misunderstanding_protector") opsW).transfer_history ∧
    evW.success = true ∧ evW.error = none := by
  have hmem : evW ∈ (runOps (initialSession "s1" "misunderstanding_protector")
      opsW).transfer_history := by decide
  exact ⟨hmem, transfer_history_only_successful "s1" "misunderstanding_protector" opsW evW hmem⟩

/-- Helper: `dictSet` never produces the empty dictionary. -/
theorem dictSet_ne_nil {α : Type} (m : List (String × α)) (k : String) (v : α) :
    dictSet m k v ≠ [] := by
  cases m with
  | nil => simp [dictSet]
  | cons h t =>
      obtain ⟨k', v'⟩ := h
      simp only [dictSet]
      split <;> simp

/-- Helper: loading the built-in defaults into any map yields a
non-empty map. -/
theorem loadDefaultsInto_ne_nil (m : AgentMap) : loadDefaultsInto m ≠ [] := by
  simp only [loadDefaultsInto, defaultAgents, List.foldl_cons, List.foldl_nil]
  exact dictSet_ne_nil _ _ _

/-- Helper: a valid cache is non-empty. -/
theorem agents_ne_nil_of_cacheValid (r : AgentRegistryState) (now : Nat)
    (h : isCacheValid r now = true) : r.agents ≠ [] := by
  unfold isCacheValid at h
  cases hl : r.last_loaded with
  | none => rw [hl] at h; exact absurd h (by simp)
  | some t =>
      rw [hl] at h
      have h1 : r.agents.isEmpty = false := by
        rcases Bool.and_eq_true .. |>.mp h with ⟨h1, _⟩
        simpa using h1
      simpa [List.isEmpty_iff] using h1

/-- C7 (amended): `load_agents` always returns a non-empty map and never
propagates a store failure; an empty result set falls back to the
built-in defaults; a store failure falls back to the defaults only when
no agents are cached, and otherwise returns the previously cached map
unchanged. -/
theorem load_agents_nonempty_fallback (r : AgentRegistryState) (force hasDb : Bool)
    (store : StoreResult) (now : Nat) :
    (load_agents r force hasDb store now).1 ≠ [] ∧
    (store = .failure → (!force && isCacheValid r now) = false → hasDb = true →
      (load_agents r force hasDb store now).1 =
        if r.agents.isEmpty then loadDefaultsInto r.agents else r.agents) ∧
    (∀ rows, store = .ok rows → (!force && isCacheValid r now) = false → hasDb = true →
      (dbRowsToMap rows).isEmpty = true →
      (load_agents r force hasDb store now).1 = loadDefaultsInto (dbRowsToMap rows)) := by
  refine ⟨?_, ?_, ?_⟩
  · unfold load_agents
    by_cases hc : (!force && isCacheValid r now) = true
    · rw [if_pos hc]
      exact agents_ne_nil_of_cacheValid r now (Bool.and_eq_true .. |>.mp hc).2
    · rw [if_neg hc]
      by_cases hd : (!hasDb) = true
      · rw [if_pos hd]
        exact loadDefaultsInto_ne_nil _
      · rw [if_neg hd]
        cases store with
        | ok rows =>
            simp only []
            by_cases he : (dbRowsToMap rows).isEmpty = true
            · rw [if_pos he]; exact loadDefaultsInto_ne_nil _
            · rw [if_neg he]
              simpa [List.isEmpty_iff] using he
        | failure =>
            simp only []
            by_cases he : r.agents.isEmpty = true
            · rw [if_pos he]; exact loadDefaultsInto_ne_nil _
            · rw [if_neg he]
              simpa [List.isEmpty_iff] using he
  · intro hs hc hd
    subst hs
    unfold load_agents
    rw [hc, hd]
    simp
  · intro rows hs hc hd he
    subst hs
    unfold load_agents
    rw [hc, hd]
    simp [he]

/-- Witness for C7 (amended) at the stale-cache fixture: the load
returns the cached map, which is non-empty. -/
theorem load_agents_nonempty_fallback_witness :
    (load_agents staleRegistry false true .failure 1000).1 ≠ [] ∧
    (load_agents staleRegistry false true .failure 1000).1 = staleRegistry.agents := by
  have h := load_agents_nonempty_fallback staleRegistry false true .failure 1000
  have h2 := h.2.1 rfl (by decide) rfl
  refine ⟨h.1, ?_⟩
  rw [h2]
  decide

/-- Counterexample for C7 as stated: on a store failure with an expired
but non-empty cache, the registry returns the stale cached map, not the
fixed built-in agent list (the built-in `misunderstanding_protector` is
absent from the result). -/
theorem load_agents_failure_not_builtin :
    (load_agents staleRegistry false true .failure 1000).1 = [("db_agent", stubAgent)] ∧
    getAgent (load_agents staleRegistry false true .failure 1000).1
      "misunderstanding_protector" = none ∧
    getAgent (loadDefaultsInto []) "misunderstanding_protector" ≠ none := by
  refine ⟨by decide, by decide, by decide⟩

/-- C8: `should_refresh_memory` returns true on every call when the
resolved mode is `always_fresh`; when the resolved mode is `cache_first`
it returns true exactly when no cached context keyed by the session id
exists. -/
theorem should_refresh_modes (c : MemoryCoordinator) (redis : RedisStore)
    (st : SessionState) (message : Option String) (now : ℚ) :
    ((getSessionConfig c st.session_id).mode = .always_fresh →
      (should_refresh_memory c redis st message now).1 = true) ∧
    ((getSessionConfig c st.session_id).mode = .cache_first →
      ((should_refresh_memory c redis st message now).1 = true ↔
        dictGet redis ("context:" ++ st.session_id) = none)) := by
  constructor
  · intro h
    simp [should_refresh_memory, h]
  · intro h
    simp [should_refresh_memory, h, Option.isNone_iff_eq_none]

/-- Witness for C8: an `always_fresh` coordinator refreshes, and a
`cache_first` coordinator refreshes exactly on an empty cache. -/
theorem should_refresh_modes_witness :
    (should_refresh_memory afCoordinator [] st8 none 0).1 = true ∧
    (should_refresh_memory cfCoordinator [] st8 none 0).1 = true ∧
    (should_refresh_memory cfCoordinator [("context:s8", "cached")] st8 none 0).1 = false := by
  refine ⟨(should_refresh_modes afCoordinator [] st8 none 0).1 rfl, ?_, ?_⟩
  · exact ((should_refresh_modes cfCoordinator [] st8 none 0).2 rfl).mpr (by decide)
  · have h := (should_refresh_modes cfCoordinator [("context:s8", "cached")] st8 none 0).2 rfl
    by_contra hb
    have : dictGet [("context:s8", "cached")] ("context:" ++ st8.session_id) = none :=
      h.mp (by simpa using Bool.of_not_eq_false hb)
    simp [st8, initialSession, dictGet] at this

/-- C5: whenever the explicit-transfer check resolves on the normalized
message — even when some other agent's implicit trigger also matches the
same message — `analyze_message` returns the explicitly requested agent
with reason `user_request`; when no explicit request resolves, the result
is exactly the trigger scan's. -/
theorem analyze_message_explicit_wins (reg : AgentMap) (patterns : PatternMap)
    (message current : String) (st : SessionState) :
    (∀ slug phrase,
      checkExplicitTransfer (pyStrip (pyLower message)) = some (slug, phrase) →
      (∃ a ∈ getAllAgents reg, a.slug ≠ current ∧
        ∃ t ∈ a.transfer_triggers, pyIn (pyLower t) (pyStrip (pyLower message)) = true) →
      analyze_message reg patterns message current st =
        some (slug, phrase, .user_request)) ∧
    (checkExplicitTransfer (pyStrip (pyLower message)) = none →
      analyze_message reg patterns message current st =
        triggerScan patterns (pyStrip (pyLower message)) current (getAllAgents reg)) := by
  constructor
  · intro slug phrase h _
    simp [analyze_message, h]
  · intro h
    simp [analyze_message, h]

/-- Witness for C5: the fixture message resolves explicitly to
`solution_finder` although the implicit trigger `I need to vent` of
`misunderstanding_protector` also matches. -/
theorem analyze_message_explicit_wins_witness :
    checkExplicitTransfer (pyStrip (pyLower c5Msg)) =
      some ("solution_finder", "transfer me to") ∧
    analyze_message c5Reg [] c5Msg "emotional_vomit_dumper"
        (initialSession "s5" "emotional_vomit_dumper") =
      some ("solution_finder", "transfer me to", .user_request) := by
  refine ⟨by decide, ?_⟩
  exact (analyze_message_explicit_wins c5Reg [] c5Msg "emotional_vomit_dumper"
      (initialSession "s5" "emotional_vomit_dumper")).1
    "solution_finder" "transfer me to" (by decide)
    ⟨mpAgent, by decide, by decide, "I need to vent", by decide, by decide⟩

/-- Helper: looking up a freshly set key returns the new value. -/
theorem dictGet_dictSet_self {α : Type} (m : List (String × α)) (k : String) (v : α) :
    dictGet (dictSet m k v) k = some v := by
  induction m with
  | nil => simp [dictSet, dictGet]
  | cons hd t ih =>
      obtain ⟨k0, v0⟩ := hd
      by_cases hk : k0 = k
      · simp [dictSet, dictGet, hk]
      · simp [dictSet, dictGet, hk, ih]

/-- Helper: setting one key does not change another key's lookup. -/
theorem dictGet_dictSet_other {α : Type} (m : List (String × α)) {k k' : String}
    (v : α) (h : k' ≠ k) : dictGet (dictSet m k' v) k = dictGet m k := by
  induction m with
  | nil => simp [dictSet, dictGet, h]
  | cons hd t ih =>
      obtain ⟨k0, v0⟩ := hd
      simp only [dictSet]
      by_cases hk : k0 = k'
      · rw [if_pos hk]
        subst hk
        simp [dictGet, h]
      · rw [if_neg hk]
        by_cases hk0 : k0 = k
        · simp [dictGet, hk0]
        · simp [dictGet, hk0, ih]

/-- Helper: `add_trigger` increments its own counter by one. -/
theorem firedCount_add_trigger_self (m : MemoryMetrics) (k : String) :
    firedCount (m.add_trigger k) k = firedCount m k + 1 := by
  simp [firedCount, MemoryMetrics.add_trigger, dictGet_dictSet_self]

/-- Helper: `add_trigger` leaves other counters alone. -/
theorem firedCount_add_trigger_other (m : MemoryMetrics) {k k' : String} (h : k' ≠ k) :
    firedCount (m.add_trigger k') k = firedCount m k := by
  simp [firedCount, MemoryMetrics.add_trigger, dictGet_dictSet_other _ _ h]

/-- Helper: when the time-elapsed stage fires with metrics present, the
update is exactly its own counter's increment. -/
theorem fireTimeElapsed_shape (cfg : MemoryConfig) (m : MemoryMetrics) (now : ℚ)
    (o : Option MemoryMetrics) (h : fireTimeElapsed cfg (some m) now = some o) :
    o = some (m.add_trigger "time_elapsed") := by
  simp only [fireTimeElapsed] at h
  split_ifs at h
  exact (Option.some.inj h).symm

/-- Helper: when the agent-transfer stage fires with metrics present,
the update is exactly its own counter's increment. -/
theorem fireAgentTransfer_shape (st : SessionState) (cfg : MemoryConfig)
    (m : MemoryMetrics) (o : Option MemoryMetrics)
    (h : fireAgentTransfer st cfg (some m) = some o) :
    o = some (m.add_trigger "agent_transfer") := by
  simp only [fireAgentTransfer] at h
  split_ifs at h
  exact (Option.some.inj h).symm

/-- Helper: when a keyword stage fires with metrics present, the update
is exactly its own counter's increment. -/
theorem fireKeywordTrigger_shape (name : String) (tc : TriggerConfig)
    (message : Option String) (m : MemoryMetrics) (o : Option MemoryMetrics)
    (h : fireKeywordTrigger name tc message (some m) = some o) :
    o = some (m.add_trigger name) := by
  cases message with
  | none => exact absurd h (by simp [fireKeywordTrigger])
  | some msg =>
      simp only [fireKeywordTrigger] at h
      split_ifs at h
      exact (Option.some.inj h).symm

/-- C9: with the resolved mode `smart_triggers`, the message-count
trigger enabled at threshold 5, and metrics registered for the session,
`should_refresh_memory` increments `triggers_fired["message_count"]` by
one exactly when the history length is divisible by 5, and the call
returns true whenever that trigger fires. -/
theorem smart_triggers_message_count_spec (c : MemoryCoordinator) (redis : RedisStore)
    (st : SessionState) (message : Option String) (now : ℚ) (m : MemoryMetrics)
    (hmode : (getSessionConfig c st.session_id).mode = .smart_triggers)
    (hen : (getSessionConfig c st.session_id).triggers.message_count.enabled = true)
    (hth : (getSessionConfig c st.session_id).triggers.message_count.threshold = some 5)
    (hm : dictGet c.session_metrics st.session_id = some m) :
    firedCount ((dictGet (should_refresh_memory c redis st message now).2.session_metrics
        st.session_id).getD m) "message_count"
      = firedCount m "message_count" +
        (if st.conversation_history.length % 5 = 0 then 1 else 0) ∧
    (st.conversation_history.length % 5 = 0 →
      (should_refresh_memory c redis st message now).1 = true) := by
  simp only [should_refresh_memory, hmode, hm]
  by_cases h5 : st.conversation_history.length % 5 = 0
  · have hfire : fireMessageCount st (getSessionConfig c st.session_id) (some m) =
        some (some (m.add_trigger "message_count")) := by
      simp [fireMessageCount, hen, hth, optNatTruthy, h5]
    simp only [checkSmartTriggers, hfire]
    refine ⟨?_, fun _ => by trivial⟩
    simp [setMetrics, dictGet_dictSet_self, firedCount_add_trigger_self, h5]
  · have hfire : fireMessageCount st (getSessionConfig c st.session_id) (some m) = none := by
      simp [fireMessageCount, hen, hth, optNatTruthy, h5]
    simp only [checkSmartTriggers, hfire]
    refine ⟨?_, fun h => absurd h h5⟩
    cases h2 : fireTimeElapsed (getSessionConfig c st.session_id) (some m) now with
    | some o =>
        obtain rfl := fireTimeElapsed_shape _ _ _ _ h2
        simp [setMetrics, dictGet_dictSet_self, h5,
          firedCount_add_trigger_other m (show "time_elapsed" ≠ "message_count" by decide)]
    | none =>
    cases h3 : fireAgentTransfer st (getSessionConfig c st.session_id) (some m) with
    | some o =>
        obtain rfl := fireAgentTransfer_shape _ _ _ _ h3
        simp [setMetrics, dictGet_dictSet_self, h5,
          firedCount_add_trigger_other m (show "agent_transfer" ≠ "message_count" by decide)]
    | none =>
    cases h4 : fireKeywordTrigger "emotion_spike"
        (getSessionConfig c st.session_id).triggers.emotion_spike message (some m) with
    | some o =>
        obtain rfl := fireKeywordTrigger_shape _ _ _ _ _ h4
        simp [setMetrics, dictGet_dictSet_self, h5,
          firedCount_add_trigger_other m (show "emotion_spike" ≠ "message_count" by decide)]
    | none =>
    cases h6 : fireKeywordTrigger "topic_change"
        (getSessionConfig c st.session_id).triggers.topic_change message (some m) with
    | some o =>
        obtain rfl := fireKeywordTrigger_shape _ _ _ _ _ h6
        simp [setMetrics, dictGet_dictSet_self, h5,
          firedCount_add_trigger_other m (show "topic_change" ≠ "message_count" by decide)]
    | none =>
    cases h7 : fireKeywordTrigger "important_info"
        (getSessionConfig c st.session_id).triggers.important_info message (some m) with
    | some o =>
        obtain rfl := fireKeywordTrigger_shape _ _ _ _ _ h7
        simp [setMetrics, dictGet_dictSet_self, h5,
          firedCount_add_trigger_other m (show "important_info" ≠ "message_count" by decide)]
    | none =>
        simp [setMetrics, dictGet_dictSet_self, h5]

/-- Witness for C9: on a fresh session (history length 0), the trigger
fires, the call refreshes, and the counter reaches 1. -/
theorem smart_triggers_message_count_spec_witness :
    (should_refresh_memory stCoordinator [] st9 none 0).1 = true ∧
    firedCount ((dictGet (should_refresh_memory stCoordinator [] st9 none 0).2.session_metrics
        st9.session_id).getD m9) "message_count" = 1 := by
  have h := smart_triggers_message_count_spec stCoordinator [] st9 none 0 m9 rfl rfl rfl rfl
  refine ⟨h.2 (by decide), ?_⟩
  have h1 := h.1
  simp only [show firedCount m9 "message_count" = 0 from rfl] at h1
  simpa using h1

/-- Helper: chunk counting distributes over append. -/
theorem countType_append (ty : String) (l1 l2 : List StreamChunk) :
    countType ty (l1 ++ l2) = countType ty l1 + countType ty l2 := by
  simp [countType, List.filter_append]

/-- Helper: chunk count of a singleton. -/
theorem countType_singleton (ty : String) (c : StreamChunk) :
    countType ty [c] = if (c.type == ty) = true then 1 else 0 := by
  simp only [countType, List.filter]
  split <;> simp_all

/-- Helper: the token fold of `stream_response` emits no error chunks. -/
theorem countType_error_streamFold (agent : Agent) (tokens : List String) :
    ∀ acc cs, countType "error" ((tokens.foldl (streamStep agent) (acc, cs)).2) =
      countType "error" cs := by
  induction tokens with
  | nil => intro acc cs; rfl
  | cons tk rest ih =>
      intro acc cs
      rw [List.foldl_cons,
        show streamStep agent (acc, cs) tk =
          ((streamStep agent (acc, cs) tk).1, (streamStep agent (acc, cs) tk).2) from rfl,
        ih]
      simp only [streamStep]
      split_ifs with hcs
      · cases hh : handleTransferSuggestion (acc ++ tk) with
        | some p =>
            simp only [hh]
            rw [countType_append, countType_append, countType_singleton, countType_singleton]
            simp [show (("content" : String) == "error") = false from rfl,
              show (("transfer" : String) == "error") = false from rfl]
        | none =>
            simp only [hh]
            rw [countType_append, countType_singleton]
            simp [show (("content" : String) == "error") = false from rfl]
      · rw [countType_append, countType_singleton]
        simp [show (("content" : String) == "error") = false from rfl]

/-- Helper: content texts distribute over append. -/
theorem contentTexts_append (l1 l2 : List StreamChunk) :
    contentTexts (l1 ++ l2) = contentTexts l1 ++ contentTexts l2 := by
  simp [contentTexts, List.filter_append]

/-- Helper: content texts of a singleton. -/
theorem contentTexts_singleton (c : StreamChunk) :
    contentTexts [c] = if (c.type == "content") = true then [c.content.getD ""] else [] := by
  simp only [contentTexts, List.filter]
  split <;> simp_all

/-- Helper: the token fold of `stream_response` emits exactly the tokens
as content. -/
theorem contentTexts_streamFold (agent : Agent) (tokens : List String) :
    ∀ acc cs, contentTexts ((tokens.foldl (streamStep agent) (acc, cs)).2) =
      contentTexts cs ++ tokens := by
  induction tokens with
  | nil => intro acc cs; simp
  | cons tk rest ih =>
      intro acc cs
      rw [List.foldl_cons,
        show streamStep agent (acc, cs) tk =
          ((streamStep agent (acc, cs) tk).1, (streamStep agent (acc, cs) tk).2) from rfl,
        ih]
      simp only [streamStep]
      split_ifs with hcs
      · cases hh : handleTransferSuggestion (acc ++ tk) with
        | some p =>
            simp only [hh]
            rw [contentTexts_append, contentTexts_append, contentTexts_singleton,
              contentTexts_singleton]
            simp [show (("content" : String) == "content") = true from rfl,
              show (("transfer" : String) == "content") = false from rfl]
        | none =>
            simp only [hh]
            rw [contentTexts_append, contentTexts_singleton]
            simp [show (("content" : String) == "content") = true from rfl]
      · rw [contentTexts_append, contentTexts_singleton]
        simp [show (("content" : String) == "content") = true from rfl]

/-- Helper: a stream that errors yields exactly one error chunk. -/
theorem countType_error_stream_of_error (agent : Agent) (outcome : CompletionOutcome)
    (e : String) (h : outcome.error = some e) :
    countType "error" (stream_response agent outcome) = 1 := by
  simp only [stream_response, h]
  rw [countType_append, countType_error_streamFold agent outcome.tokens "" [],
    countType_singleton]
  simp [show (("error" : String) == "error") = true from rfl, countType]

/-- Helper: on an errored stream the accumulated assistant text is the
concatenation of the delivered tokens. -/
theorem responseContent_stream_of_error (agent : Agent) (outcome : CompletionOutcome)
    (e : String) (h : outcome.error = some e) :
    responseContent (stream_response agent outcome) = String.join outcome.tokens := by
  have hrc : responseContent (stream_response agent outcome) =
      String.join (contentTexts (stream_response agent outcome)) := rfl
  rw [hrc]
  simp only [stream_response, h]
  rw [contentTexts_append, contentTexts_streamFold agent outcome.tokens "" [],
    contentTexts_singleton]
  simp [show (("error" : String) == "content") = false from rfl, contentTexts]

/-- Helper: a non-aborting transfer stage emits no error chunks. -/
theorem countType_error_transferStage (reg : AgentMap) (patterns : PatternMap)
    (s1 : SessionState) (message : String) (tp : List StreamChunk × SessionState)
    (h : transferStage reg patterns s1 message = some tp) :
    countType "error" tp.1 = 0 := by
  unfold transferStage at h
  cases hA : analyze_message reg patterns message s1.current_agent s1 with
  | none =>
      rw [hA] at h
      obtain rfl := Option.some.inj h
      rfl
  | some p =>
      obtain ⟨tgt, trig, reason⟩ := p
      rw [hA] at h
      simp only at h
      split_ifs at h with hs
      · cases hN : getAgent reg tgt with
        | some newAgent =>
            rw [hN] at h
            cases hO : getAgent reg
                (execute_transfer reg s1 tgt reason (some trig) message).1.from_agent with
            | some oldAgent =>
                rw [hO] at h
                obtain rfl := Option.some.inj h
                rw [countType_singleton]
                simp [show (("transfer" : String) == "error") = false from rfl]
            | none =>
                rw [hO] at h
                exact absurd h (by simp)
        | none =>
            rw [hN] at h
            obtain rfl := Option.some.inj h
            rfl
      · obtain rfl := Option.some.inj h
        rfl

/-- C6 (amended): when the completion service raises during streaming,
either the transfer stage itself aborted the turn (its notification
crashed on an unresolvable old agent: no chunks delivered, nothing
persisted), or the turn runs and — when the current agent resolves —
completes, emitting exactly one error chunk and persisting the partially
accumulated assistant content to the conversation history as an ordinary
assistant message whenever it is non-empty (only an error before any
content leaves the history without an assistant message). -/
theorem stream_error_single_chunk_partial_persisted
    (reg : AgentMap) (patterns : PatternMap) (s : SessionState) (message : String)
    (uid : Option String) (outcome : CompletionOutcome) (e : String)
    (herr : outcome.error = some e) :
    (transferStage reg patterns (sessionWithUser s message uid) message = none →
      process_message reg patterns s message uid outcome = none) ∧
    (∀ tp agent,
      transferStage reg patterns (sessionWithUser s message uid) message = some tp →
      getAgent reg tp.2.current_agent = some agent →
      process_message reg patterns s message uid outcome ≠ none ∧
      (∀ chunks s3,
        process_message reg patterns s message uid outcome = some (chunks, s3) →
        countType "error" chunks = 1 ∧
        s3.conversation_history = tp.2.conversation_history ++
          (if String.join outcome.tokens = "" then []
           else [{ role := "assistant", content := String.join outcome.tokens,
                   agent_id := some agent.slug }]))) := by
  constructor
  · intro habort
    simp [process_message, habort]
  · intro tp agent htp hagent
    have hrc := responseContent_stream_of_error agent outcome e herr
    have hpm : process_message reg patterns s message uid outcome =
        some (tp.1 ++ stream_response agent outcome,
          if responseContent (stream_response agent outcome) = "" then tp.2
          else tp.2.add_message
            { role := "assistant"
              content := responseContent (stream_response agent outcome)
              agent_id := some agent.slug }) := by
      simp only [process_message, htp, hagent]
    refine ⟨by rw [hpm]; simp, ?_⟩
    intro chunks s3 h
    rw [hpm] at h
    obtain ⟨h1, h2⟩ := Prod.mk.inj (Option.some.inj h)
    constructor
    · rw [← h1, countType_append,
        countType_error_transferStage reg patterns _ message tp htp,
        countType_error_stream_of_error agent outcome e herr]
    · rw [← h2, hrc]
      split_ifs with hj
      · simp
      · simp [SessionState.add_message]

/-- Witness for C6 (amended) at the fixture turn: the turn completes
(does not abort). -/
theorem stream_error_single_chunk_partial_persisted_witness :
    process_message c6Reg [] c6Session "Hello there" none c6Outcome ≠ none := by
  exact ((stream_error_single_chunk_partial_persisted c6Reg [] c6Session "Hello there" none
    c6Outcome "boom" rfl).2 ([], sessionWithUser c6Session "Hello there" none) c6Agent
    (by decide) (by decide)).1

/-- Counterexample for C6 as stated: the turn does emit exactly one
error chunk, but the partially accumulated assistant message (`"Hel"`)
IS persisted to the conversation history as final content. -/
theorem partial_content_persisted_after_stream_error :
    (process_message c6Reg [] c6Session "Hello there" none c6Outcome).map
        (fun r => countType "error" r.1) = some 1 ∧
    (process_message c6Reg [] c6Session "Hello there" none c6Outcome).map
        (fun r => r.2.conversation_history) =
      some [{ role := "user", content := "Hello there" },
            { role := "assistant", content := "Hel",
              agent_id := some "misunderstanding_protector" }] := by
  constructor
  · decide
  · decide

/-- C3 (amended): `validate_transfer_chain` does detect unhealthy
chains — it returns false when the context's transfer count exceeds 10,
and when at least 3 of the last 5 recorded transfers of the session
target at most two distinct agents — but `execute_transfer` never
consults it: every transfer is appended to the history unconditionally. -/
theorem validate_detects_loops_but_execute_records
    (history : List TransferRecord) (ctx : TransferContext)
    (from_agent to_agent : String) (t : TransferTrigger) :
    (10 < ctx.transfer_count → validate_transfer_chain history ctx = false) ∧
    (3 ≤ (get_transfer_history history ctx.session_id 5).length →
      (((get_transfer_history history ctx.session_id 5).map
        (fun r => r.to_agent)).dedup).length ≤ 2 →
      validate_transfer_chain history ctx = false) ∧
    (mcp_execute_transfer history from_agent to_agent t ctx).2.1 =
      history ++ [(mcp_execute_transfer history from_agent to_agent t ctx).1] := by
  refine ⟨fun h => ?_, fun h1 h2 => ?_, rfl⟩
  · simp [validate_transfer_chain, h]
  · simp only [validate_transfer_chain]
    split_ifs with ha hb
    · rfl
    · rfl
    · exact absurd ⟨h1, h2⟩ hb

/-- Witness for C3 (amended) at the oscillating fixture: the chain
A-B-A-B is flagged unhealthy, yet the fifth transfer is still appended. -/
theorem validate_detects_loops_but_execute_records_witness :
    validate_transfer_chain oscStep4.2.1 oscStep4.2.2 = false ∧
    (mcp_execute_transfer oscStep4.2.1 "misunderstanding_protector" "emotional_vomit_dumper"
        trigVent oscStep4.2.2).2.1 =
      oscStep4.2.1 ++ [(mcp_execute_transfer oscStep4.2.1 "misunderstanding_protector"
        "emotional_vomit_dumper" trigVent oscStep4.2.2).1] := by
  have h := validate_detects_loops_but_execute_records oscStep4.2.1 oscStep4.2.2
    "misunderstanding_protector" "emotional_vomit_dumper" trigVent
  exact ⟨h.2.1 (by decide) (by decide), h.2.2⟩

/-- Counterexample for C3 as stated: after the oscillating sequence A-B,
B-A, A-B, B-A the chain is unhealthy (`validate_transfer_chain` is
false), yet a fifth oscillating transfer IS recorded — the history grows
to five records ending A-B and the current agent moves to the fifth
target. -/
theorem fifth_oscillating_transfer_recorded :
    validate_transfer_chain oscStep4.2.1 oscStep4.2.2 = false ∧
    oscStep5.2.1.length = 5 ∧
    oscStep5.2.1.map (fun r => (r.from_agent, r.to_agent)) =
      [("misunderstanding_protector", "emotional_vomit_dumper"),
       ("emotional_vomit_dumper", "misunderstanding_protector"),
       ("misunderstanding_protector", "emotional_vomit_dumper"),
       ("emotional_vomit_dumper", "misunderstanding_protector"),
       ("misunderstanding_protector", "emotional_vomit_dumper")] ∧
    oscStep5.2.2.current_agent = "emotional_vomit_dumper" := by
  refine ⟨by decide, by decide, by decide, by decide⟩

/-- Helper: the raw confidence never drops below 0.2 (the base is at
least 0.5 and the two dampeners subtract at most 0.3). -/
theorem raw_confidence_ge (t : TransferTrigger) (message : String) (ctx : TransferContext) :
    20 ≤ raw_confidence t message ctx := by
  simp only [raw_confidence]
  split_ifs <;> omega

/-- Helper: the clamped confidence never drops below 0.2; in particular
every computed confidence is strictly positive. -/
theorem calc_confidence_ge (t : TransferTrigger) (message : String) (ctx : TransferContext) :
    20 ≤ calc_confidence t message ctx := by
  have h20 := raw_confidence_ge t message ctx
  simp only [calc_confidence, iMin, iMax]
  split_ifs <;> omega

/-- Helper: soundness of the selection loop — a returned candidate is
either the incoming best or a firing trigger from the remaining list
whose confidence strictly beats the incoming best score. -/
theorem selectLoop_sound (message : String) (ctx : TransferContext) :
    ∀ (ts : List TransferTrigger) (best : Option (TransferTrigger × Int)) (bs : Int)
      (t : TransferTrigger) (c : Int),
      selectLoop message ctx ts best bs = some (t, c) →
      best = some (t, c) ∨
        (t ∈ ts ∧ Fires message ctx t ∧ c = calc_confidence t message ctx ∧ bs < c) := by
  intro ts
  induction ts with
  | nil => intro best bs t c h; exact Or.inl h
  | cons hd rest ih =>
      intro best bs t c h
      simp only [selectLoop] at h
      split_ifs at h with h1 h2 h3
      · rcases ih best bs t c h with h' | ⟨hmem, hf, hc, hbs⟩
        · exact Or.inl h'
        · exact Or.inr ⟨List.mem_cons_of_mem _ hmem, hf, hc, hbs⟩
      · rcases ih (some (hd, calc_confidence hd message ctx))
            (calc_confidence hd message ctx) t c h with h' | ⟨hmem, hf, hc, hbs⟩
        · obtain ⟨hh1, hh2⟩ := Prod.mk.inj (Option.some.inj h')
          refine Or.inr ⟨?_, ?_, ?_, ?_⟩
          · rw [← hh1]; exact List.mem_cons_self hd rest
          · rw [← hh1]; exact ⟨h1, h2, h3.1⟩
          · rw [← hh1, ← hh2]
          · rw [← hh2]; exact h3.2
        · exact Or.inr ⟨List.mem_cons_of_mem _ hmem, hf, hc, lt_trans h3.2 hbs⟩
      · rcases ih best bs t c h with h' | ⟨hmem, hf, hc, hbs⟩
        · exact Or.inl h'
        · exact Or.inr ⟨List.mem_cons_of_mem _ hmem, hf, hc, hbs⟩
      · rcases ih best bs t c h with h' | ⟨hmem, hf, hc, hbs⟩
        · exact Or.inl h'
        · exact Or.inr ⟨List.mem_cons_of_mem _ hmem, hf, hc, hbs⟩

/-- Helper: the loop never loses a non-empty best candidate. -/
theorem selectLoop_ne_none_of_best (message : String) (ctx : TransferContext) :
    ∀ (ts : List TransferTrigger) (best : Option (TransferTrigger × Int)) (bs : Int),
      best ≠ none → selectLoop message ctx ts best bs ≠ none := by
  intro ts
  induction ts with
  | nil => intro best bs h; simpa [selectLoop] using h
  | cons hd rest ih =>
      intro best bs h
      simp only [selectLoop]
      split_ifs with h1 h2 h3
      · exact ih best bs h
      · exact ih _ _ (by simp)
      · exact ih best bs h
      · exact ih best bs h

/-- Helper: completeness — when some remaining trigger fires (and the
accumulator is still empty with score 0), the loop returns a candidate. -/
theorem selectLoop_ne_none_of_fires (message : String) (ctx : TransferContext) :
    ∀ (ts : List TransferTrigger) (best : Option (TransferTrigger × Int)) (bs : Int),
      (best = none → bs = 0) →
      (∃ u ∈ ts, Fires message ctx u) →
      selectLoop message ctx ts best bs ≠ none := by
  intro ts
  induction ts with
  | nil =>
      intro best bs h0 hex
      obtain ⟨u, hu, _⟩ := hex
      exact absurd hu (List.not_mem_nil u)
  | cons hd rest ih =>
      intro best bs h0 hex
      obtain ⟨u, hu, hf⟩ := hex
      by_cases hb : best = none
      · rcases List.mem_cons.mp hu with rfl | hu'
        · simp only [selectLoop]
          rw [if_neg hf.1, if_pos hf.2.1]
          have hpos := calc_confidence_ge u message ctx
          rw [if_pos ⟨hf.2.2, by rw [h0 hb]; omega⟩]
          exact selectLoop_ne_none_of_best message ctx rest _ _ (by simp)
        · simp only [selectLoop]
          split_ifs with h1 h2 h3
          · exact ih best bs h0 ⟨u, hu', hf⟩
          · exact selectLoop_ne_none_of_best message ctx rest _ _ (by simp)
          · exact ih best bs h0 ⟨u, hu', hf⟩
          · exact ih best bs h0 ⟨u, hu', hf⟩
      · simp only [selectLoop]
        split_ifs with h1 h2 h3
        · exact selectLoop_ne_none_of_best message ctx rest best bs hb
        · exact selectLoop_ne_none_of_best message ctx rest _ _ (by simp)
        · exact selectLoop_ne_none_of_best message ctx rest best bs hb
        · exact selectLoop_ne_none_of_best message ctx rest best bs hb

/-- Helper: the returned score never drops below the incoming best
score. -/
theorem selectLoop_score_mono (message : String) (ctx : TransferContext)
    (ts : List TransferTrigger) (best : Option (TransferTrigger × Int)) (bs : Int)
    (h0 : ∀ t' c', best = some (t', c') → bs = c')
    (t : TransferTrigger) (c : Int)
    (h : selectLoop message ctx ts best bs = some (t, c)) : bs ≤ c := by
  rcases selectLoop_sound message ctx ts best bs t c h with h' | ⟨_, _, _, hbs⟩
  · exact le_of_eq (h0 t c h')
  · exact le_of_lt hbs

/-- Helper: the returned score dominates the confidence of every firing
trigger in the remaining list. -/
theorem selectLoop_dom (message : String) (ctx : TransferContext) :
    ∀ (ts : List TransferTrigger) (best : Option (TransferTrigger × Int)) (bs : Int),
      (∀ t' c', best = some (t', c') → bs = c') →
      ∀ u ∈ ts, Fires message ctx u →
      ∀ t c, selectLoop message ctx ts best bs = some (t, c) →
      calc_confidence u message ctx ≤ c := by
  intro ts
  induction ts with
  | nil =>
      intro best bs h0 u hu
      exact absurd hu (List.not_mem_nil u)
  | cons hd rest ih =>
      intro best bs h0 u hu hf t c hres
      simp only [selectLoop] at hres
      rcases List.mem_cons.mp hu with rfl | hu'
      · rw [if_neg hf.1, if_pos hf.2.1] at hres
        by_cases hcond : u.confidence_threshold ≤ calc_confidence u message ctx ∧
            bs < calc_confidence u message ctx
        · rw [if_pos hcond] at hres
          exact selectLoop_score_mono message ctx rest _ _
            (fun t' c' h' => (Prod.mk.inj (Option.some.inj h')).2) t c hres
        · rw [if_neg hcond] at hres
          have hle : calc_confidence u message ctx ≤ bs := by
            rcases not_and_or.mp hcond with hna | hnb
            · exact absurd hf.2.2 hna
            · exact le_of_not_lt hnb
          exact le_trans hle (selectLoop_score_mono message ctx rest best bs h0 t c hres)
      · split_ifs at hres with h1 h2 h3
        · exact ih best bs h0 u hu' hf t c hres
        · exact ih _ _ (fun t' c' h' => (Prod.mk.inj (Option.some.inj h')).2) u hu' hf t c hres
        · exact ih best bs h0 u hu' hf t c hres
        · exact ih best bs h0 u hu' hf t c hres

/-- Helper: priority tie-break — over a priority-descending list, a
firing trigger whose confidence equals the returned score has priority
at most the returned trigger's. -/
theorem selectLoop_tie (message : String) (ctx : TransferContext) :
    ∀ (ts : List TransferTrigger) (best : Option (TransferTrigger × Int)) (bs : Int),
      (∀ t' c', best = some (t', c') → bs = c') →
      (best = none → bs = 0) →
      List.Pairwise (fun a b => b.priority ≤ a.priority) ts →
      (∀ t' c', best = some (t', c') → ∀ v ∈ ts, v.priority ≤ t'.priority) →
      ∀ u ∈ ts, Fires message ctx u →
      ∀ t c, selectLoop message ctx ts best bs = some (t, c) →
      calc_confidence u message ctx = c → u.priority ≤ t.priority := by
  intro ts
  induction ts with
  | nil =>
      intro best bs _ _ _ _ u hu
      exact absurd hu (List.not_mem_nil u)
  | cons hd rest ih =>
      intro best bs h0 h1 hsort hbd u hu hf t c hres hceq
      obtain ⟨hhd, hsort_rest⟩ := List.pairwise_cons.mp hsort
      simp only [selectLoop] at hres
      rcases List.mem_cons.mp hu with rfl | hu'
      · rw [if_neg hf.1, if_pos hf.2.1] at hres
        by_cases hcond : u.confidence_threshold ≤ calc_confidence u message ctx ∧
            bs < calc_confidence u message ctx
        · rw [if_pos hcond] at hres
          rcases selectLoop_sound message ctx rest _ _ t c hres with h' | ⟨_, _, _, hlt⟩
          · obtain ⟨hh1, _⟩ := Prod.mk.inj (Option.some.inj h')
            rw [← hh1]
          · exact absurd (hceq ▸ hlt) (lt_irrefl c)
        · rw [if_neg hcond] at hres
          have hle : calc_confidence u message ctx ≤ bs := by
            rcases not_and_or.mp hcond with hna | hnb
            · exact absurd hf.2.2 hna
            · exact le_of_not_lt hnb
          cases hbest : best with
          | none =>
              have h20 := calc_confidence_ge u message ctx
              rw [h1 hbest] at hle
              omega
          | some p =>
              obtain ⟨t0, cb⟩ := p
              rcases selectLoop_sound message ctx rest best bs t c hres with h' | ⟨_, _, _, hlt⟩
              · rw [hbest] at h'
                obtain ⟨hh1, _⟩ := Prod.mk.inj (Option.some.inj h')
                rw [← hh1]
                exact hbd t0 cb hbest u (List.mem_cons_self u rest)
              · have hcc : calc_confidence u message ctx < c := lt_of_le_of_lt hle hlt
                rw [hceq] at hcc
                exact absurd hcc (lt_irrefl c)
      · split_ifs at hres with h1' h2' h3'
        · exact ih best bs h0 h1 hsort_rest
            (fun t' c' hb v hv => hbd t' c' hb v (List.mem_cons_of_mem _ hv))
            u hu' hf t c hres hceq
        · refine ih _ _ (fun t' c' h' => (Prod.mk.inj (Option.some.inj h')).2)
            (fun h' => Option.noConfusion h') hsort_rest ?_ u hu' hf t c hres hceq
          intro t' c' h' v hv
          obtain ⟨hh1, _⟩ := Prod.mk.inj (Option.some.inj h')
          rw [← hh1]
          exact hhd v hv
        · exact ih best bs h0 h1 hsort_rest
            (fun t' c' hb v hv => hbd t' c' hb v (List.mem_cons_of_mem _ hv))
            u hu' hf t c hres hceq
        · exact ih best bs h0 h1 hsort_rest
            (fun t' c' hb v hv => hbd t' c' hb v (List.mem_cons_of_mem _ hv))
            u hu' hf t c hres hceq

/-- Helper: membership through the stable insertion. -/
theorem mem_insertByPriority (t : TransferTrigger) (l : List TransferTrigger)
    (a : TransferTrigger) : a ∈ insertByPriority t l ↔ a = t ∨ a ∈ l := by
  induction l with
  | nil => simp [insertByPriority]
  | cons u rest ih =>
      simp only [insertByPriority]
      split_ifs with h
      · simp [List.mem_cons]
      · simp only [List.mem_cons, ih]
        tauto

/-- Helper: the stable insertion preserves descending priority order. -/
theorem pairwise_insertByPriority (t : TransferTrigger) (l : List TransferTrigger)
    (h : List.Pairwise (fun a b => b.priority ≤ a.priority) l) :
    List.Pairwise (fun a b => b.priority ≤ a.priority) (insertByPriority t l) := by
  induction l with
  | nil => simp [insertByPriority]
  | cons u rest ih =>
      obtain ⟨hu, hrest⟩ := List.pairwise_cons.mp h
      simp only [insertByPriority]
      split_ifs with hcmp
      · refine List.pairwise_cons.mpr ⟨?_, h⟩
        intro v hv
        rcases List.mem_cons.mp hv with rfl | hv'
        · exact hcmp
        · exact le_trans (hu v hv') hcmp
      · refine List.pairwise_cons.mpr ⟨?_, ih hrest⟩
        intro v hv
        rcases (mem_insertByPriority t rest v).mp hv with rfl | hv'
        · exact (not_le.mp hcmp).le
        · exact hu v hv'

/-- Helper: the sort is a permutation in the membership sense. -/
theorem mem_sortByPriorityDesc (l : List TransferTrigger) (a : TransferTrigger) :
    a ∈ sortByPriorityDesc l ↔ a ∈ l := by
  induction l with
  | nil => simp [sortByPriorityDesc]
  | cons u rest ih =>
      simp only [sortByPriorityDesc, List.foldr_cons] at ih ⊢
      rw [mem_insertByPriority, ih, List.mem_cons]

/-- Helper: the sort produces a priority-descending list. -/
theorem pairwise_sortByPriorityDesc (l : List TransferTrigger) :
    List.Pairwise (fun a b => b.priority ≤ a.priority) (sortByPriorityDesc l) := by
  induction l with
  | nil => simp [sortByPriorityDesc]
  | cons u rest ih =>
      simp only [sortByPriorityDesc, List.foldr_cons] at ih ⊢
      exact pairwise_insertByPriority u _ ih

/-- C4 (amended): a trigger is selected only when its computed
confidence reaches its configured threshold, and among all firing
triggers the one with the HIGHEST CONFIDENCE is selected — priority only
breaks exact confidence ties (the priority-descending scan keeps a
candidate only while a later trigger's confidence strictly exceeds it);
moreover whenever any trigger fires, something is selected. -/
theorem analyze_selects_highest_confidence (triggers : List TransferTrigger)
    (message : String) (ctx : TransferContext) :
    (∀ a t c, analyze_transfer_request triggers message ctx = some (a, t, c) →
      a = t.target_agent ∧ t ∈ triggers ∧ Fires message ctx t ∧
      c = calc_confidence t message ctx ∧
      (∀ u ∈ triggers, Fires message ctx u →
        calc_confidence u message ctx ≤ c ∧
        (calc_confidence u message ctx = c → u.priority ≤ t.priority))) ∧
    ((∃ u ∈ triggers, Fires message ctx u) →
      analyze_transfer_request triggers message ctx ≠ none) := by
  constructor
  · intro a t c h
    rw [analyze_transfer_request, Option.map_eq_some'] at h
    obtain ⟨⟨t0, c0⟩, hsel, heq⟩ := h
    obtain ⟨ha, ht⟩ := Prod.mk.inj heq
    obtain ⟨ht0, hc0⟩ := Prod.mk.inj ht
    subst ht0; subst hc0; subst ha
    have hsound := selectLoop_sound message ctx (sortByPriorityDesc triggers) none 0 t0 c0 hsel
    rcases hsound with h' | ⟨hmem, hf, hc, _⟩
    · exact absurd h' (by simp)
    · refine ⟨rfl, (mem_sortByPriorityDesc triggers t0).mp hmem, hf, hc, ?_⟩
      intro u hu hfu
      refine ⟨?_, ?_⟩
      · exact selectLoop_dom message ctx (sortByPriorityDesc triggers) none 0
          (fun _ _ h' => Option.noConfusion h') u
          ((mem_sortByPriorityDesc triggers u).mpr hu) hfu t0 c0 hsel
      · intro hceq
        exact selectLoop_tie message ctx (sortByPriorityDesc triggers) none 0
          (fun _ _ h' => Option.noConfusion h') (fun _ => rfl)
          (pairwise_sortByPriorityDesc triggers)
          (fun _ _ h' => Option.noConfusion h') u
          ((mem_sortByPriorityDesc triggers u).mpr hu) hfu t0 c0 hsel hceq
  · intro hex h
    obtain ⟨u, hu, hf⟩ := hex
    rw [analyze_transfer_request, Option.map_eq_none'] at h
    exact selectLoop_ne_none_of_fires message ctx (sortByPriorityDesc triggers) none 0
      (fun _ => rfl) ⟨u, (mem_sortByPriorityDesc triggers u).mpr hu, hf⟩ h

/-- Witness for C4 (amended): on the fixture message something is
selected. -/
theorem analyze_selects_highest_confidence_witness :
    analyze_transfer_request initTriggers exMsg exCtx ≠ none := by
  exact (analyze_selects_highest_confidence initTriggers exMsg exCtx).2
    ⟨trigVent, by decide, by decide⟩

/-- Counterexample for C4 as stated: on the fixture message the
priority-9 breakthrough trigger fires (its confidence 0.8 reaches its
0.7 threshold), yet the engine selects the priority-1 emotional trigger,
whose boosted confidence 1.0 is higher — highest priority does NOT win. -/
theorem analyze_priority_counterexample :
    trigDone ∈ initTriggers ∧ Fires exMsg exCtx trigDone ∧ trigDone.priority = 9 ∧
    trigVent ∈ initTriggers ∧ Fires exMsg exCtx trigVent ∧ trigVent.priority = 1 ∧
    (analyze_transfer_request initTriggers exMsg exCtx).map
        (fun p => (p.1, p.2.1.priority)) = some ("emotional_vomit_dumper", 1) := by
  refine ⟨by decide, by decide, rfl, by decide, by decide, rfl, by decide⟩

end Relatrix
